import Mathlib

set_option maxRecDepth 8192

/-
Verification of the field.js SDF modeling kernel.

Shallow embedding notes:
- JavaScript numbers are modelled as real numbers; Math.sqrt, Math.sin,
  Math.cos, Math.PI become Real.sqrt, Real.sin, Real.cos, Real.pi.
- JavaScript `throw` in a constructing call is modelled by returning
  `Except.error msg`; a successful construction returns `Except.ok field`.
- A Field object is modelled by its `_evaluate` closure plus its `_bounds`.
- The mesher's Float32Array sizes and byte offsets are modelled over Nat,
  with the ratio arithmetic of the memory check carried out over Rat,
  matching the exact values the JavaScript source computes.
-/

namespace SDF

/-- A 3D vector, mirroring the `{x, y, z}` objects of the source. -/
structure V3 where
  x : ℝ
  y : ℝ
  z : ℝ

/-- Vec3.add from the source. -/
def V3.add (a b : V3) : V3 := ⟨a.x + b.x, a.y + b.y, a.z + b.z⟩

/-- Vec3.sub from the source. -/
def V3.sub (a b : V3) : V3 := ⟨a.x - b.x, a.y - b.y, a.z - b.z⟩

/-- Vec3.mul (scalar multiply) from the source. -/
def V3.scale (v : V3) (s : ℝ) : V3 := ⟨v.x * s, v.y * s, v.z * s⟩

/-- Vec3.dot from the source. -/
def V3.dot (a b : V3) : ℝ := a.x * b.x + a.y * b.y + a.z * b.z

/-- Vec3.cross from the source. -/
def V3.cross (a b : V3) : V3 :=
  ⟨a.y * b.z - a.z * b.y, a.z * b.x - a.x * b.z, a.x * b.y - a.y * b.x⟩

/-- Vec3.length from the source: Math.sqrt(x*x + y*y + z*z). -/
noncomputable def V3.length (v : V3) : ℝ :=
  Real.sqrt (v.x * v.x + v.y * v.y + v.z * v.z)

/-- Vec3.normalize from the source: len > 0 ? mul(v, 1/len) : zero vector. -/
noncomputable def V3.normalize (v : V3) : V3 :=
  if 0 < v.length then v.scale (1 / v.length) else ⟨0, 0, 0⟩

/-- Vec3.distance from the source. -/
noncomputable def V3.dist (a b : V3) : ℝ := (a.sub b).length

/-- Vec3.clamp from the source: componentwise Math.max(lo, Math.min(hi, v)). -/
def V3.clampTo (v lo hi : V3) : V3 :=
  ⟨max lo.x (min hi.x v.x), max lo.y (min hi.y v.y), max lo.z (min hi.z v.z)⟩

/-- An axis-aligned bounding box, mirroring `{min, max}` of the source. -/
structure B3 where
  min : V3
  max : V3

/-- Bounds.isValid from the source: min ≤ max componentwise. -/
def B3.isValid (b : B3) : Prop :=
  b.min.x ≤ b.max.x ∧ b.min.y ≤ b.max.y ∧ b.min.z ≤ b.max.z

/-- A Field object: its `_evaluate` closure plus its `_bounds` (null allowed). -/
structure Field where
  evaluate : V3 → ℝ
  boundsOpt : Option B3

/-- Field.bounds() from the source: the stored bounds, or the default
large bounds (plus/minus 1000 on every axis) when `_bounds` is null. -/
def Field.boundsOr (f : Field) : B3 :=
  match f.boundsOpt with
  | some b => b
  | none => ⟨⟨-1000, -1000, -1000⟩, ⟨1000, 1000, 1000⟩⟩

/-- Field._gradient from the source: central finite differences with step
`eps`, normalized. -/
noncomputable def Field.gradient (f : Field) (p : V3) (eps : ℝ) : V3 :=
  V3.normalize
    ⟨(f.evaluate ⟨p.x + eps, p.y, p.z⟩ - f.evaluate ⟨p.x - eps, p.y, p.z⟩) / (2 * eps),
     (f.evaluate ⟨p.x, p.y + eps, p.z⟩ - f.evaluate ⟨p.x, p.y - eps, p.z⟩) / (2 * eps),
     (f.evaluate ⟨p.x, p.y, p.z + eps⟩ - f.evaluate ⟨p.x, p.y, p.z - eps⟩) / (2 * eps)⟩

/-- The `_evaluate` closure of Primitives.sphere. -/
noncomputable def sphereEvaluate (center : V3) (radius : ℝ) (p : V3) : ℝ :=
  V3.dist p center - radius

/-- Primitives.sphere: throws when radius is not positive. -/
noncomputable def Primitives.sphere (center : V3) (radius : ℝ) : Except String Field :=
  if radius ≤ 0 then Except.error "Sphere radius must be positive"
  else Except.ok
    ⟨sphereEvaluate center radius,
     some ⟨⟨center.x - radius, center.y - radius, center.z - radius⟩,
           ⟨center.x + radius, center.y + radius, center.z + radius⟩⟩⟩

/-- The `_evaluate` closure of Primitives.box: componentwise distance to the
half-extent, split into the outside length and the inside min-max part. -/
noncomputable def boxEvaluate (center size : V3) (p : V3) : ℝ :=
  let d : V3 := ⟨|p.x - center.x| - size.x * (1/2),
                 |p.y - center.y| - size.y * (1/2),
                 |p.z - center.z| - size.z * (1/2)⟩
  let outside := V3.length ⟨max d.x 0, max d.y 0, max d.z 0⟩
  let inside := min (max d.x (max d.y d.z)) 0
  outside + inside

/-- Primitives.box: throws when any size component is not positive. -/
noncomputable def Primitives.box (center size : V3) : Except String Field :=
  if size.x ≤ 0 ∨ size.y ≤ 0 ∨ size.z ≤ 0 then
    Except.error "Box dimensions must be positive"
  else Except.ok
    ⟨boxEvaluate center size,
     some ⟨center.sub (size.scale (1/2)), center.add (size.scale (1/2))⟩⟩

/-- The `_evaluate` closure of Primitives.cylinder. -/
noncomputable def cylinderEvaluate (pstart pend : V3) (radius : ℝ) (p : V3) : ℝ :=
  let axis := V3.normalize (pend.sub pstart)
  let height := V3.dist pstart pend
  let v := p.sub pstart
  let proj := V3.dot v axis
  let projPoint := pstart.add (axis.scale proj)
  let vecToAxis := p.sub projPoint
  let distToSide := vecToAxis.length - radius
  let distToTop := proj - height
  let distToBottom := -proj
  let distToCap := max distToTop distToBottom
  if 0 ≤ proj ∧ proj ≤ height then
    if distToSide < 0 then max distToSide distToCap else distToSide
  else
    Real.sqrt (max distToSide 0 ^ 2 + max distToCap 0 ^ 2) +
      min (max distToSide distToCap) 0

/-- Primitives.cylinder: throws on a non-positive radius, then on
start and end closer than 0.0001. -/
noncomputable def Primitives.cylinder (pstart pend : V3) (radius : ℝ) :
    Except String Field :=
  if radius ≤ 0 then Except.error "Cylinder radius must be positive"
  else if V3.dist pstart pend < 0.0001 then
    Except.error "Cylinder start and end must be different"
  else Except.ok
    ⟨cylinderEvaluate pstart pend radius,
     some ⟨⟨min pstart.x pend.x - radius, min pstart.y pend.y - radius,
            min pstart.z pend.z - radius⟩,
           ⟨max pstart.x pend.x + radius, max pstart.y pend.y + radius,
            max pstart.z pend.z + radius⟩⟩⟩

/-- The `_evaluate` closure of Primitives.cone. -/
noncomputable def coneEvaluate (base tip : V3) (radius : ℝ) (p : V3) : ℝ :=
  let axis := V3.normalize (tip.sub base)
  let height := V3.dist base tip
  let v := p.sub base
  let proj := V3.dot v axis
  let projPoint := base.add (axis.scale proj)
  let vecToAxis := p.sub projPoint
  let distFromAxis := vecToAxis.length
  let t := proj / height
  let coneRadius := radius * (1 - t)
  let distToBase := -proj
  let distToTip := proj - height
  if proj < 0 then
    let distToConeSurface := distFromAxis - radius
    Real.sqrt (max distToConeSurface 0 ^ 2 + max distToBase 0 ^ 2) +
      min (max distToConeSurface distToBase) 0
  else if proj > height then
    V3.dist p tip
  else
    let distToSlope := distFromAxis - coneRadius
    let distToCap := max distToBase distToTip
    if distToSlope < 0 ∧ distToCap < 0 then max distToSlope distToCap
    else
      Real.sqrt (max distToSlope 0 ^ 2 + max distToCap 0 ^ 2) +
        min (max distToSlope distToCap) 0

/-- Primitives.cone: throws on a non-positive radius, then on base and tip
closer than 0.0001. -/
noncomputable def Primitives.cone (base tip : V3) (radius : ℝ) :
    Except String Field :=
  if radius ≤ 0 then Except.error "Cone radius must be positive"
  else if V3.dist base tip < 0.0001 then
    Except.error "Cone base and tip must be different"
  else Except.ok
    ⟨coneEvaluate base tip radius,
     some ⟨⟨min (base.x - radius) tip.x, min (base.y - radius) tip.y,
            min (base.z - radius) tip.z⟩,
           ⟨max (base.x + radius) tip.x, max (base.y + radius) tip.y,
            max (base.z + radius) tip.z⟩⟩⟩

/-- The `_evaluate` closure of Primitives.capsule: distance to the closest
point of the core segment, minus the radius. -/
noncomputable def capsuleEvaluate (pstart pend : V3) (radius : ℝ) (p : V3) : ℝ :=
  let lineVec := pend.sub pstart
  let lineLength := lineVec.length
  let lineDir := V3.normalize lineVec
  let v := p.sub pstart
  let proj := V3.dot v lineDir
  let t := max 0 (min lineLength proj)
  let closest := pstart.add (lineDir.scale t)
  V3.dist p closest - radius

/-- Primitives.capsule: the source validates only the radius; there is no
coincident start and end check (unlike cylinder and cone). -/
noncomputable def Primitives.capsule (pstart pend : V3) (radius : ℝ) :
    Except String Field :=
  if radius ≤ 0 then Except.error "Capsule radius must be positive"
  else Except.ok
    ⟨capsuleEvaluate pstart pend radius,
     some ⟨⟨min pstart.x pend.x - radius, min pstart.y pend.y - radius,
            min pstart.z pend.z - radius⟩,
           ⟨max pstart.x pend.x + radius, max pstart.y pend.y + radius,
            max pstart.z pend.z + radius⟩⟩⟩

/-- Transform.scale: throws when any scale factor is not positive; otherwise
evaluates the wrapped field at the inverse-scaled point and multiplies the
result by the minimum scale factor. -/
noncomputable def Transform.scale (field : Field) (s : V3) (center : V3) :
    Except String Field :=
  if s.x ≤ 0 ∨ s.y ≤ 0 ∨ s.z ≤ 0 then
    Except.error "Scale factors must be positive"
  else
    let minScale := min s.x (min s.y s.z)
    let b := field.boundsOr
    Except.ok
      ⟨fun p =>
        let translated := p.sub center
        let scaled : V3 := ⟨translated.x / s.x, translated.y / s.y, translated.z / s.z⟩
        field.evaluate (scaled.add center) * minScale,
       some ⟨⟨center.x + (b.min.x - center.x) * s.x,
              center.y + (b.min.y - center.y) * s.y,
              center.z + (b.min.z - center.z) * s.z⟩,
             ⟨center.x + (b.max.x - center.x) * s.x,
              center.y + (b.max.y - center.y) * s.y,
              center.z + (b.max.z - center.z) * s.z⟩⟩⟩

/-- Boolean.difference: max(a, -b), bounds taken from a.bounds(). -/
noncomputable def Boolean.difference (a b : Field) : Field :=
  ⟨fun p => max (a.evaluate p) (-(b.evaluate p)), some a.boundsOr⟩

/-- Boolean._smoothMin: the polynomial smooth minimum folded pairwise over
the value list (a single value is returned unchanged). -/
noncomputable def Boolean.smoothMinList (values : List ℝ) (k : ℝ) : ℝ :=
  match values with
  | [] => 0
  | v :: rest =>
    rest.foldl (fun res vi =>
      let h := max (k - |res - vi|) 0 / k
      min res vi - h * h * k * 0.25) v

/-- Boolean._smoothMax: the polynomial smooth maximum folded pairwise over
the value list (a single value is returned unchanged). -/
noncomputable def Boolean.smoothMaxList (values : List ℝ) (k : ℝ) : ℝ :=
  match values with
  | [] => 0
  | v :: rest =>
    rest.foldl (fun res vi =>
      let h := max (k - |res - vi|) 0 / k
      max res vi + h * h * k * 0.25) v

/-- The `_evaluate` closure of Lattice.gyroid: outside the declared bounds the
Euclidean distance to the bounding box, inside the gyroid surface value. -/
noncomputable def gyroidEvaluate (bounds : B3) (cellSize thickness : ℝ) (p : V3) : ℝ :=
  let freq := 2 * Real.pi / cellSize
  if p.x < bounds.min.x ∨ p.x > bounds.max.x ∨
     p.y < bounds.min.y ∨ p.y > bounds.max.y ∨
     p.z < bounds.min.z ∨ p.z > bounds.max.z then
    let dx := max (bounds.min.x - p.x) (max (p.x - bounds.max.x) 0)
    let dy := max (bounds.min.y - p.y) (max (p.y - bounds.max.y) 0)
    let dz := max (bounds.min.z - p.z) (max (p.z - bounds.max.z) 0)
    Real.sqrt (dx * dx + dy * dy + dz * dz)
  else
    |Real.sin (p.x * freq) * Real.cos (p.y * freq) +
     Real.sin (p.y * freq) * Real.cos (p.z * freq) +
     Real.sin (p.z * freq) * Real.cos (p.x * freq)| - thickness

/-- Lattice.gyroid: never throws; stores the given bounds directly. -/
noncomputable def Lattice.gyroid (bounds : B3) (cellSize thickness : ℝ) : Field :=
  ⟨gyroidEvaluate bounds cellSize thickness, some bounds⟩

/-- The `_evaluate` closure of Lattice.schwarzP: same bounds guard as the
gyroid, with the Schwarz P surface value inside. -/
noncomputable def schwarzPEvaluate (bounds : B3) (cellSize thickness : ℝ) (p : V3) : ℝ :=
  let freq := 2 * Real.pi / cellSize
  if p.x < bounds.min.x ∨ p.x > bounds.max.x ∨
     p.y < bounds.min.y ∨ p.y > bounds.max.y ∨
     p.z < bounds.min.z ∨ p.z > bounds.max.z then
    let dx := max (bounds.min.x - p.x) (max (p.x - bounds.max.x) 0)
    let dy := max (bounds.min.y - p.y) (max (p.y - bounds.max.y) 0)
    let dz := max (bounds.min.z - p.z) (max (p.z - bounds.max.z) 0)
    Real.sqrt (dx * dx + dy * dy + dz * dz)
  else
    |Real.cos (p.x * freq) + Real.cos (p.y * freq) + Real.cos (p.z * freq)| - thickness

/-- Lattice.schwarzP: never throws; stores the given bounds directly. -/
noncomputable def Lattice.schwarzP (bounds : B3) (cellSize thickness : ℝ) : Field :=
  ⟨schwarzPEvaluate bounds cellSize thickness, some bounds⟩

/-- The `_evaluate` closure of Lattice.diamond: same bounds guard as the
gyroid, with the diamond surface value inside. -/
noncomputable def diamondEvaluate (bounds : B3) (cellSize thickness : ℝ) (p : V3) : ℝ :=
  let freq := 2 * Real.pi / cellSize
  if p.x < bounds.min.x ∨ p.x > bounds.max.x ∨
     p.y < bounds.min.y ∨ p.y > bounds.max.y ∨
     p.z < bounds.min.z ∨ p.z > bounds.max.z then
    let dx := max (bounds.min.x - p.x) (max (p.x - bounds.max.x) 0)
    let dy := max (bounds.min.y - p.y) (max (p.y - bounds.max.y) 0)
    let dz := max (bounds.min.z - p.z) (max (p.z - bounds.max.z) 0)
    Real.sqrt (dx * dx + dy * dy + dz * dz)
  else
    |Real.sin (p.x * freq) * Real.sin (p.y * freq) * Real.sin (p.z * freq) +
     Real.sin (p.x * freq) * Real.cos (p.y * freq) * Real.cos (p.z * freq) +
     Real.cos (p.x * freq) * Real.sin (p.y * freq) * Real.cos (p.z * freq) +
     Real.cos (p.x * freq) * Real.cos (p.y * freq) * Real.sin (p.z * freq)| - thickness

/-- Lattice.diamond: never throws; stores the given bounds directly. -/
noncomputable def Lattice.diamond (bounds : B3) (cellSize thickness : ℝ) : Field :=
  ⟨diamondEvaluate bounds cellSize thickness, some bounds⟩

/-- The `_evaluate` closure of Lattice.schwarzD: same bounds guard as the
gyroid, with the Schwarz D surface value inside. -/
noncomputable def schwarzDEvaluate (bounds : B3) (cellSize thickness : ℝ) (p : V3) : ℝ :=
  let freq := 2 * Real.pi / cellSize
  if p.x < bounds.min.x ∨ p.x > bounds.max.x ∨
     p.y < bounds.min.y ∨ p.y > bounds.max.y ∨
     p.z < bounds.min.z ∨ p.z > bounds.max.z then
    let dx := max (bounds.min.x - p.x) (max (p.x - bounds.max.x) 0)
    let dy := max (bounds.min.y - p.y) (max (p.y - bounds.max.y) 0)
    let dz := max (bounds.min.z - p.z) (max (p.z - bounds.max.z) 0)
    Real.sqrt (dx * dx + dy * dy + dz * dz)
  else
    |Real.sin (p.x * freq) * Real.sin (p.y * freq) * Real.sin (p.z * freq) -
     Real.sin (p.x * freq) * Real.cos (p.y * freq) * Real.cos (p.z * freq) -
     Real.cos (p.x * freq) * Real.sin (p.y * freq) * Real.cos (p.z * freq) -
     Real.cos (p.x * freq) * Real.cos (p.y * freq) * Real.sin (p.z * freq)| - thickness

/-- Lattice.schwarzD: never throws; stores the given bounds directly. -/
noncomputable def Lattice.schwarzD (bounds : B3) (cellSize thickness : ℝ) : Field :=
  ⟨schwarzDEvaluate bounds cellSize thickness, some bounds⟩

/-- Truncation toward zero, as JavaScript division-based remainder uses. -/
noncomputable def jsTrunc (x : ℝ) : ℝ := if 0 ≤ x then (⌊x⌋ : ℝ) else (⌈x⌉ : ℝ)

/-- The JavaScript remainder a % b: a minus b times the truncated quotient
(sign follows the dividend); used by the cubic and octet lattices for
domain repetition. -/
noncomputable def jsMod (a b : ℝ) : ℝ := a - b * jsTrunc (a / b)

/-- The `_evaluate` closure of Lattice.cubic: same bounds guard as the
gyroid; inside, the distance to the nearest of the three axis-aligned beam
families of the repeated cell, minus the beam thickness. -/
noncomputable def cubicEvaluate (bounds : B3) (cellSize beamThickness : ℝ) (p : V3) : ℝ :=
  if p.x < bounds.min.x ∨ p.x > bounds.max.x ∨
     p.y < bounds.min.y ∨ p.y > bounds.max.y ∨
     p.z < bounds.min.z ∨ p.z > bounds.max.z then
    let dx := max (bounds.min.x - p.x) (max (p.x - bounds.max.x) 0)
    let dy := max (bounds.min.y - p.y) (max (p.y - bounds.max.y) 0)
    let dz := max (bounds.min.z - p.z) (max (p.z - bounds.max.z) 0)
    Real.sqrt (dx * dx + dy * dy + dz * dz)
  else
    let mx := jsMod (jsMod p.x cellSize + cellSize) cellSize
    let my := jsMod (jsMod p.y cellSize + cellSize) cellSize
    let mz := jsMod (jsMod p.z cellSize + cellSize) cellSize
    let dx := min mx (cellSize - mx)
    let dy := min my (cellSize - my)
    let dz := min mz (cellSize - mz)
    min (Real.sqrt (dy * dy + dz * dz))
      (min (Real.sqrt (dx * dx + dz * dz)) (Real.sqrt (dx * dx + dy * dy))) -
      beamThickness

/-- Lattice.cubic: never throws; stores the given bounds directly. -/
noncomputable def Lattice.cubic (bounds : B3) (cellSize beamThickness : ℝ) : Field :=
  ⟨cubicEvaluate bounds cellSize beamThickness, some bounds⟩

/-- The `_evaluate` closure of Lattice.octet: same bounds guard as the
gyroid; inside, the distance to the nearest of the six diagonal beam planes
of the repeated cell, minus the beam thickness. -/
noncomputable def octetEvaluate (bounds : B3) (cellSize beamThickness : ℝ) (p : V3) : ℝ :=
  if p.x < bounds.min.x ∨ p.x > bounds.max.x ∨
     p.y < bounds.min.y ∨ p.y > bounds.max.y ∨
     p.z < bounds.min.z ∨ p.z > bounds.max.z then
    let dx := max (bounds.min.x - p.x) (max (p.x - bounds.max.x) 0)
    let dy := max (bounds.min.y - p.y) (max (p.y - bounds.max.y) 0)
    let dz := max (bounds.min.z - p.z) (max (p.z - bounds.max.z) 0)
    Real.sqrt (dx * dx + dy * dy + dz * dz)
  else
    let s := cellSize
    let mx := jsMod (jsMod p.x s + s) s
    let my := jsMod (jsMod p.y s + s) s
    let mz := jsMod (jsMod p.z s + s) s
    let d1 := |mx + my - s| / Real.sqrt 2
    let d2 := |mx - my| / Real.sqrt 2
    let d3 := |my + mz - s| / Real.sqrt 2
    let d4 := |my - mz| / Real.sqrt 2
    let d5 := |mz + mx - s| / Real.sqrt 2
    let d6 := |mz - mx| / Real.sqrt 2
    min d1 (min d2 (min d3 (min d4 (min d5 d6)))) - beamThickness

/-- Lattice.octet: never throws; stores the given bounds directly. -/
noncomputable def Lattice.octet (bounds : B3) (cellSize beamThickness : ℝ) : Field :=
  ⟨octetEvaluate bounds cellSize beamThickness, some bounds⟩

/-- MarchingCubesTables.edgeTable from the source (256 entries, written in
decimal here): bit i of entry c flags edge i as intersected for cube
configuration c. -/
def MarchingCubesTables.edgeTable : List Nat :=
  [0, 265, 515, 778, 1030, 1295, 1541, 1804,
   2060, 2309, 2575, 2822, 3082, 3331, 3593, 3840,
   400, 153, 915, 666, 1430, 1183, 1941, 1692,
   2460, 2197, 2975, 2710, 3482, 3219, 3993, 3728,
   560, 825, 51, 314, 1590, 1855, 1077, 1340,
   2620, 2869, 2111, 2358, 3642, 3891, 3129, 3376,
   928, 681, 419, 170, 1958, 1711, 1445, 1196,
   2988, 2725, 2479, 2214, 4010, 3747, 3497, 3232,
   1120, 1385, 1635, 1898, 102, 367, 613, 876,
   3180, 3429, 3695, 3942, 2154, 2403, 2665, 2912,
   1520, 1273, 2035, 1786, 502, 255, 1013, 764,
   3580, 3317, 4095, 3830, 2554, 2291, 3065, 2800,
   1616, 1881, 1107, 1370, 598, 863, 85, 348,
   3676, 3925, 3167, 3414, 2650, 2899, 2137, 2384,
   1984, 1737, 1475, 1226, 966, 719, 453, 204,
   4044, 3781, 3535, 3270, 3018, 2755, 2505, 2240,
   2240, 2505, 2755, 3018, 3270, 3535, 3781, 4044,
   204, 453, 719, 966, 1226, 1475, 1737, 1984,
   2384, 2137, 2899, 2650, 3414, 3167, 3925, 3676,
   348, 85, 863, 598, 1370, 1107, 1881, 1616,
   2800, 3065, 2291, 2554, 3830, 4095, 3317, 3580,
   764, 1013, 255, 502, 1786, 2035, 1273, 1520,
   2912, 2665, 2403, 2154, 3942, 3695, 3429, 3180,
   876, 613, 367, 102, 1898, 1635, 1385, 1120,
   3232, 3497, 3747, 4010, 2214, 2479, 2725, 2988,
   1196, 1445, 1711, 1958, 170, 419, 681, 928,
   3376, 3129, 3891, 3642, 2358, 2111, 2869, 2620,
   1340, 1077, 1855, 1590, 314, 51, 825, 560,
   3728, 3993, 3219, 3482, 2710, 2975, 2197, 2460,
   1692, 1941, 1183, 1430, 666, 915, 153, 400,
   3840, 3593, 3331, 3082, 2822, 2575, 2309, 2060,
   1804, 1541, 1295, 1030, 778, 515, 265, 0]

/-- MarchingCubesTables.triTable from the source (256 entries): each entry
lists zero or more triangles as triples of edge indices. -/
def MarchingCubesTables.triTable : List (List Nat) :=
  [[],
   [0, 8, 3],
   [0, 1, 9],
   [1, 8, 3, 9, 8, 1],
   [1, 2, 10],
   [0, 8, 3, 1, 2, 10],
   [9, 2, 10, 0, 2, 9],
   [2, 8, 3, 2, 10, 8, 10, 9, 8],
   [3, 11, 2],
   [0, 11, 2, 8, 11, 0],
   [1, 9, 0, 2, 3, 11],
   [1, 11, 2, 1, 9, 11, 9, 8, 11],
   [3, 10, 1, 11, 10, 3],
   [0, 10, 1, 0, 8, 10, 8, 11, 10],
   [3, 9, 0, 3, 11, 9, 11, 10, 9],
   [9, 8, 10, 10, 8, 11],
   [4, 7, 8],
   [4, 3, 0, 7, 3, 4],
   [0, 1, 9, 8, 4, 7],
   [4, 1, 9, 4, 7, 1, 7, 3, 1],
   [1, 2, 10, 8, 4, 7],
   [3, 4, 7, 3, 0, 4, 1, 2, 10],
   [9, 2, 10, 9, 0, 2, 8, 4, 7],
   [2, 10, 9, 2, 9, 7, 2, 7, 3, 7, 9, 4],
   [8, 4, 7, 3, 11, 2],
   [11, 4, 7, 11, 2, 4, 2, 0, 4],
   [9, 0, 1, 8, 4, 7, 2, 3, 11],
   [4, 7, 11, 9, 4, 11, 9, 11, 2, 9, 2, 1],
   [3, 10, 1, 3, 11, 10, 7, 8, 4],
   [1, 11, 10, 1, 4, 11, 1, 0, 4, 7, 11, 4],
   [4, 7, 8, 9, 0, 11, 9, 11, 10, 11, 0, 3],
   [4, 7, 11, 4, 11, 9, 9, 11, 10],
   [9, 5, 4],
   [9, 5, 4, 0, 8, 3],
   [0, 5, 4, 1, 5, 0],
   [8, 5, 4, 8, 3, 5, 3, 1, 5],
   [1, 2, 10, 9, 5, 4],
   [3, 0, 8, 1, 2, 10, 4, 9, 5],
   [5, 2, 10, 5, 4, 2, 4, 0, 2],
   [2, 10, 5, 3, 2, 5, 3, 5, 4, 3, 4, 8],
   [9, 5, 4, 2, 3, 11],
   [0, 11, 2, 0, 8, 11, 4, 9, 5],
   [0, 5, 4, 0, 1, 5, 2, 3, 11],
   [2, 1, 5, 2, 5, 8, 2, 8, 11, 4, 8, 5],
   [10, 3, 11, 10, 1, 3, 9, 5, 4],
   [4, 9, 5, 0, 8, 1, 8, 10, 1, 8, 11, 10],
   [5, 4, 0, 5, 0, 11, 5, 11, 10, 11, 0, 3],
   [5, 4, 8, 5, 8, 10, 10, 8, 11],
   [9, 7, 8, 5, 7, 9],
   [9, 3, 0, 9, 5, 3, 5, 7, 3],
   [0, 7, 8, 0, 1, 7, 1, 5, 7],
   [1, 5, 3, 3, 5, 7],
   [9, 7, 8, 9, 5, 7, 10, 1, 2],
   [10, 1, 2, 9, 5, 0, 5, 3, 0, 5, 7, 3],
   [8, 0, 2, 8, 2, 5, 8, 5, 7, 10, 5, 2],
   [2, 10, 5, 2, 5, 3, 3, 5, 7],
   [7, 9, 5, 7, 8, 9, 3, 11, 2],
   [9, 5, 7, 9, 7, 2, 9, 2, 0, 2, 7, 11],
   [2, 3, 11, 0, 1, 8, 1, 7, 8, 1, 5, 7],
   [11, 2, 1, 11, 1, 7, 7, 1, 5],
   [9, 5, 8, 8, 5, 7, 10, 1, 3, 10, 3, 11],
   [5, 7, 0, 5, 0, 9, 7, 11, 0, 1, 0, 10, 11, 10, 0],
   [11, 10, 0, 11, 0, 3, 10, 5, 0, 8, 0, 7, 5, 7, 0],
   [11, 10, 5, 7, 11, 5],
   [10, 6, 5],
   [0, 8, 3, 5, 10, 6],
   [9, 0, 1, 5, 10, 6],
   [1, 8, 3, 1, 9, 8, 5, 10, 6],
   [1, 6, 5, 2, 6, 1],
   [1, 6, 5, 1, 2, 6, 3, 0, 8],
   [9, 6, 5, 9, 0, 6, 0, 2, 6],
   [5, 9, 8, 5, 8, 2, 5, 2, 6, 3, 2, 8],
   [2, 3, 11, 10, 6, 5],
   [11, 0, 8, 11, 2, 0, 10, 6, 5],
   [0, 1, 9, 2, 3, 11, 5, 10, 6],
   [5, 10, 6, 1, 9, 2, 9, 11, 2, 9, 8, 11],
   [6, 3, 11, 6, 5, 3, 5, 1, 3],
   [0, 8, 11, 0, 11, 5, 0, 5, 1, 5, 11, 6],
   [3, 11, 6, 0, 3, 6, 0, 6, 5, 0, 5, 9],
   [6, 5, 9, 6, 9, 11, 11, 9, 8],
   [5, 10, 6, 4, 7, 8],
   [4, 3, 0, 4, 7, 3, 6, 5, 10],
   [1, 9, 0, 5, 10, 6, 8, 4, 7],
   [10, 6, 5, 1, 9, 7, 1, 7, 3, 7, 9, 4],
   [6, 1, 2, 6, 5, 1, 4, 7, 8],
   [1, 2, 5, 5, 2, 6, 3, 0, 4, 3, 4, 7],
   [8, 4, 7, 9, 0, 5, 0, 6, 5, 0, 2, 6],
   [7, 3, 9, 7, 9, 4, 3, 2, 9, 5, 9, 6, 2, 6, 9],
   [3, 11, 2, 7, 8, 4, 10, 6, 5],
   [5, 10, 6, 4, 7, 2, 4, 2, 0, 2, 7, 11],
   [0, 1, 9, 4, 7, 8, 2, 3, 11, 5, 10, 6],
   [9, 2, 1, 9, 11, 2, 9, 4, 11, 7, 11, 4, 5, 10, 6],
   [8, 4, 7, 3, 11, 5, 3, 5, 1, 5, 11, 6],
   [5, 1, 11, 5, 11, 6, 1, 0, 11, 7, 11, 4, 0, 4, 11],
   [0, 5, 9, 0, 6, 5, 0, 3, 6, 11, 6, 3, 8, 4, 7],
   [6, 5, 9, 6, 9, 11, 4, 7, 9, 7, 11, 9],
   [10, 4, 9, 6, 4, 10],
   [4, 10, 6, 4, 9, 10, 0, 8, 3],
   [10, 0, 1, 10, 6, 0, 6, 4, 0],
   [8, 3, 1, 8, 1, 6, 8, 6, 4, 6, 1, 10],
   [1, 4, 9, 1, 2, 4, 2, 6, 4],
   [3, 0, 8, 1, 2, 9, 2, 4, 9, 2, 6, 4],
   [0, 2, 4, 4, 2, 6],
   [8, 3, 2, 8, 2, 4, 4, 2, 6],
   [10, 4, 9, 10, 6, 4, 11, 2, 3],
   [0, 8, 2, 2, 8, 11, 4, 9, 10, 4, 10, 6],
   [3, 11, 2, 0, 1, 6, 0, 6, 4, 6, 1, 10],
   [6, 4, 1, 6, 1, 10, 4, 8, 1, 2, 1, 11, 8, 11, 1],
   [9, 6, 4, 9, 3, 6, 9, 1, 3, 11, 6, 3],
   [8, 11, 1, 8, 1, 0, 11, 6, 1, 9, 1, 4, 6, 4, 1],
   [3, 11, 6, 3, 6, 0, 0, 6, 4],
   [6, 4, 8, 11, 6, 8],
   [7, 10, 6, 7, 8, 10, 8, 9, 10],
   [0, 7, 3, 0, 10, 7, 0, 9, 10, 6, 7, 10],
   [10, 6, 7, 1, 10, 7, 1, 7, 8, 1, 8, 0],
   [10, 6, 7, 10, 7, 1, 1, 7, 3],
   [1, 2, 6, 1, 6, 8, 1, 8, 9, 8, 6, 7],
   [2, 6, 9, 2, 9, 1, 6, 7, 9, 0, 9, 3, 7, 3, 9],
   [7, 8, 0, 7, 0, 6, 6, 0, 2],
   [7, 3, 2, 6, 7, 2],
   [2, 3, 11, 10, 6, 8, 10, 8, 9, 8, 6, 7],
   [2, 0, 7, 2, 7, 11, 0, 9, 7, 6, 7, 10, 9, 10, 7],
   [1, 8, 0, 1, 7, 8, 1, 10, 7, 6, 7, 10, 2, 3, 11],
   [11, 2, 1, 11, 1, 7, 10, 6, 1, 6, 7, 1],
   [8, 9, 6, 8, 6, 7, 9, 1, 6, 11, 6, 3, 1, 3, 6],
   [0, 9, 1, 11, 6, 7],
   [7, 8, 0, 7, 0, 6, 3, 11, 0, 11, 6, 0],
   [7, 11, 6],
   [7, 6, 11],
   [3, 0, 8, 11, 7, 6],
   [0, 1, 9, 11, 7, 6],
   [8, 1, 9, 8, 3, 1, 11, 7, 6],
   [10, 1, 2, 6, 11, 7],
   [1, 2, 10, 3, 0, 8, 6, 11, 7],
   [2, 9, 0, 2, 10, 9, 6, 11, 7],
   [6, 11, 7, 2, 10, 3, 10, 8, 3, 10, 9, 8],
   [7, 2, 3, 6, 2, 7],
   [7, 0, 8, 7, 6, 0, 6, 2, 0],
   [2, 7, 6, 2, 3, 7, 0, 1, 9],
   [1, 6, 2, 1, 8, 6, 1, 9, 8, 8, 7, 6],
   [10, 7, 6, 10, 1, 7, 1, 3, 7],
   [10, 7, 6, 1, 7, 10, 1, 8, 7, 1, 0, 8],
   [0, 3, 7, 0, 7, 10, 0, 10, 9, 6, 10, 7],
   [7, 6, 10, 7, 10, 8, 8, 10, 9],
   [6, 8, 4, 11, 8, 6],
   [3, 6, 11, 3, 0, 6, 0, 4, 6],
   [8, 6, 11, 8, 4, 6, 9, 0, 1],
   [9, 4, 6, 9, 6, 3, 9, 3, 1, 11, 3, 6],
   [6, 8, 4, 6, 11, 8, 2, 10, 1],
   [1, 2, 10, 3, 0, 11, 0, 6, 11, 0, 4, 6],
   [4, 11, 8, 4, 6, 11, 0, 2, 9, 2, 10, 9],
   [10, 9, 3, 10, 3, 2, 9, 4, 3, 11, 3, 6, 4, 6, 3],
   [8, 2, 3, 8, 4, 2, 4, 6, 2],
   [0, 4, 2, 4, 6, 2],
   [1, 9, 0, 2, 3, 4, 2, 4, 6, 4, 3, 8],
   [1, 9, 4, 1, 4, 2, 2, 4, 6],
   [8, 1, 3, 8, 6, 1, 8, 4, 6, 6, 10, 1],
   [10, 1, 0, 10, 0, 6, 6, 0, 4],
   [4, 6, 3, 4, 3, 8, 6, 10, 3, 0, 3, 9, 10, 9, 3],
   [10, 9, 4, 6, 10, 4],
   [4, 9, 5, 7, 6, 11],
   [0, 8, 3, 4, 9, 5, 11, 7, 6],
   [5, 0, 1, 5, 4, 0, 7, 6, 11],
   [11, 7, 6, 8, 3, 4, 3, 5, 4, 3, 1, 5],
   [9, 5, 4, 10, 1, 2, 7, 6, 11],
   [6, 11, 7, 1, 2, 10, 0, 8, 3, 4, 9, 5],
   [7, 6, 11, 5, 4, 10, 4, 2, 10, 4, 0, 2],
   [3, 4, 8, 3, 5, 4, 3, 2, 5, 10, 5, 2, 11, 7, 6],
   [7, 2, 3, 7, 6, 2, 5, 4, 9],
   [9, 5, 4, 0, 8, 6, 0, 6, 2, 6, 8, 7],
   [3, 6, 2, 3, 7, 6, 1, 5, 0, 5, 4, 0],
   [6, 2, 8, 6, 8, 7, 2, 1, 8, 4, 8, 5, 1, 5, 8],
   [9, 5, 4, 10, 1, 6, 1, 7, 6, 1, 3, 7],
   [1, 6, 10, 1, 7, 6, 1, 0, 7, 8, 7, 0, 9, 5, 4],
   [4, 0, 10, 4, 10, 5, 0, 3, 10, 6, 10, 7, 3, 7, 10],
   [7, 6, 10, 7, 10, 8, 5, 4, 10, 4, 8, 10],
   [6, 9, 5, 6, 11, 9, 11, 8, 9],
   [3, 6, 11, 0, 6, 3, 0, 5, 6, 0, 9, 5],
   [0, 11, 8, 0, 5, 11, 0, 1, 5, 5, 6, 11],
   [6, 11, 3, 6, 3, 5, 5, 3, 1],
   [1, 2, 10, 9, 5, 11, 9, 11, 8, 11, 5, 6],
   [0, 11, 3, 0, 6, 11, 0, 9, 6, 5, 6, 9, 1, 2, 10],
   [11, 8, 5, 11, 5, 6, 8, 0, 5, 10, 5, 2, 0, 2, 5],
   [6, 11, 3, 6, 3, 5, 2, 10, 3, 10, 5, 3],
   [5, 8, 9, 5, 2, 8, 5, 6, 2, 3, 8, 2],
   [9, 5, 6, 9, 6, 0, 0, 6, 2],
   [1, 5, 8, 1, 8, 0, 5, 6, 8, 3, 8, 2, 6, 2, 8],
   [1, 5, 6, 2, 1, 6],
   [1, 3, 6, 1, 6, 10, 3, 8, 6, 5, 6, 9, 8, 9, 6],
   [10, 1, 0, 10, 0, 6, 9, 5, 0, 5, 6, 0],
   [0, 3, 8, 5, 6, 10],
   [10, 5, 6],
   [11, 5, 10, 7, 5, 11],
   [11, 5, 10, 11, 7, 5, 8, 3, 0],
   [5, 11, 7, 5, 10, 11, 1, 9, 0],
   [10, 7, 5, 10, 11, 7, 9, 8, 1, 8, 3, 1],
   [11, 1, 2, 11, 7, 1, 7, 5, 1],
   [0, 8, 3, 1, 2, 7, 1, 7, 5, 7, 2, 11],
   [9, 7, 5, 9, 2, 7, 9, 0, 2, 2, 11, 7],
   [7, 5, 2, 7, 2, 11, 5, 9, 2, 3, 2, 8, 9, 8, 2],
   [2, 5, 10, 2, 3, 5, 3, 7, 5],
   [8, 2, 0, 8, 5, 2, 8, 7, 5, 10, 2, 5],
   [9, 0, 1, 5, 10, 3, 5, 3, 7, 3, 10, 2],
   [9, 8, 2, 9, 2, 1, 8, 7, 2, 10, 2, 5, 7, 5, 2],
   [1, 3, 5, 3, 7, 5],
   [0, 8, 7, 0, 7, 1, 1, 7, 5],
   [9, 0, 3, 9, 3, 5, 5, 3, 7],
   [9, 8, 7, 5, 9, 7],
   [5, 8, 4, 5, 10, 8, 10, 11, 8],
   [5, 0, 4, 5, 11, 0, 5, 10, 11, 11, 3, 0],
   [0, 1, 9, 8, 4, 10, 8, 10, 11, 10, 4, 5],
   [10, 11, 4, 10, 4, 5, 11, 3, 4, 9, 4, 1, 3, 1, 4],
   [2, 5, 1, 2, 8, 5, 2, 11, 8, 4, 5, 8],
   [0, 4, 11, 0, 11, 3, 4, 5, 11, 2, 11, 1, 5, 1, 11],
   [0, 2, 5, 0, 5, 9, 2, 11, 5, 4, 5, 8, 11, 8, 5],
   [9, 4, 5, 2, 11, 3],
   [2, 5, 10, 3, 5, 2, 3, 4, 5, 3, 8, 4],
   [5, 10, 2, 5, 2, 4, 4, 2, 0],
   [3, 10, 2, 3, 5, 10, 3, 8, 5, 4, 5, 8, 0, 1, 9],
   [5, 10, 2, 5, 2, 4, 1, 9, 2, 9, 4, 2],
   [8, 4, 5, 8, 5, 3, 3, 5, 1],
   [0, 4, 5, 1, 0, 5],
   [8, 4, 5, 8, 5, 3, 9, 0, 5, 0, 3, 5],
   [9, 4, 5],
   [4, 11, 7, 4, 9, 11, 9, 10, 11],
   [0, 8, 3, 4, 9, 7, 9, 11, 7, 9, 10, 11],
   [1, 10, 11, 1, 11, 4, 1, 4, 0, 7, 4, 11],
   [3, 1, 4, 3, 4, 8, 1, 10, 4, 7, 4, 11, 10, 11, 4],
   [4, 11, 7, 9, 11, 4, 9, 2, 11, 9, 1, 2],
   [9, 7, 4, 9, 11, 7, 9, 1, 11, 2, 11, 1, 0, 8, 3],
   [11, 7, 4, 11, 4, 2, 2, 4, 0],
   [11, 7, 4, 11, 4, 2, 8, 3, 4, 3, 2, 4],
   [2, 9, 10, 2, 7, 9, 2, 3, 7, 7, 4, 9],
   [9, 10, 7, 9, 7, 4, 10, 2, 7, 8, 7, 0, 2, 0, 7],
   [3, 7, 10, 3, 10, 2, 7, 4, 10, 1, 10, 0, 4, 0, 10],
   [1, 10, 2, 8, 7, 4],
   [4, 9, 1, 4, 1, 7, 7, 1, 3],
   [4, 9, 1, 4, 1, 7, 0, 8, 1, 8, 7, 1],
   [4, 0, 3, 7, 4, 3],
   [4, 8, 7],
   [9, 10, 8, 10, 11, 8],
   [3, 0, 9, 3, 9, 11, 11, 9, 10],
   [0, 1, 10, 0, 10, 8, 8, 10, 11],
   [3, 1, 10, 11, 3, 10],
   [1, 2, 11, 1, 11, 9, 9, 11, 8],
   [3, 0, 9, 3, 9, 11, 1, 2, 9, 2, 11, 9],
   [0, 2, 11, 8, 0, 11],
   [3, 2, 11],
   [2, 3, 8, 2, 8, 10, 10, 8, 9],
   [9, 10, 2, 0, 9, 2],
   [2, 3, 8, 2, 8, 10, 0, 1, 8, 1, 10, 8],
   [1, 10, 2],
   [1, 3, 8, 9, 1, 8],
   [0, 9, 1],
   [0, 3, 8],
   []]

/-- MarchingCubesTables.edgeConnections from the source: the two corner
indices of each of the 12 cube edges. -/
def MarchingCubesTables.edgeConnections : List (Fin 8 × Fin 8) :=
  [(0, 1), (1, 2), (2, 3), (3, 0),
   (4, 5), (5, 6), (6, 7), (7, 4),
   (0, 4), (1, 5), (2, 6), (3, 7)]

/-- The two corners of edge e, from edgeConnections. -/
def conn (e : Fin 12) : Fin 8 × Fin 8 :=
  MarchingCubesTables.edgeConnections.getD e.val (0, 0)

/-- The cornerOffsets array of marchingCubes: unit cube corner coordinates
in source order. -/
def cornerOffsets : List (Nat × Nat × Nat) :=
  [(0, 0, 0), (1, 0, 0), (1, 0, 1), (0, 0, 1),
   (0, 1, 0), (1, 1, 0), (1, 1, 1), (0, 1, 1)]

/-- Offsets of corner c. -/
def cornerOffset (c : Fin 8) : Nat × Nat × Nat :=
  cornerOffsets.getD c.val (0, 0, 0)

/-- The cube index accumulation of _marchCube on a Boolean corner
classification: bit i is set (value 1 shifted left by i) when corner i is
classified inside. -/
def cubeIndexB (b : Fin 8 → Bool) : Nat :=
  (if b 0 then 1 else 0) + (if b 1 then 2 else 0) + (if b 2 then 4 else 0) +
  (if b 3 then 8 else 0) + (if b 4 then 16 else 0) + (if b 5 then 32 else 0) +
  (if b 6 then 64 else 0) + (if b 7 then 128 else 0)

/-- The corner-sign index of _marchCube: bit i set exactly when
values[i] <= 0. -/
noncomputable def cubeIndex (values : Fin 8 → ℝ) : Nat :=
  cubeIndexB fun i => decide (values i ≤ 0)

/-- Edge e is flagged for configuration idx by the edge table. -/
def edgeFlagged (idx : Nat) (e : Fin 12) : Bool :=
  (MarchingCubesTables.edgeTable.getD idx 0).testBit e.val

/-- The interpolated zero-crossing point of edge e inside the cube at pos
with the given step, exactly as _marchCube computes it:
t = abs(val1) / (abs(val1) + abs(val2)), lerped between the corner offsets
and scaled into world coordinates. -/
noncomputable def edgePoint (values : Fin 8 → ℝ) (pos step : V3) (e : Fin 12) : V3 :=
  let c := conn e
  let val1 := values c.1
  let val2 := values c.2
  let t := |val1| / (|val1| + |val2|)
  let p1 := cornerOffset c.1
  let p2 := cornerOffset c.2
  ⟨pos.x + ((p1.1 : ℝ) + t * ((p2.1 : ℝ) - (p1.1 : ℝ))) * step.x,
   pos.y + ((p1.2.1 : ℝ) + t * ((p2.2.1 : ℝ) - (p1.2.1 : ℝ))) * step.y,
   pos.z + ((p1.2.2 : ℝ) + t * ((p2.2.2 : ℝ) - (p1.2.2 : ℝ))) * step.z⟩

/-- The edgePoints array of _marchCube: defined only for flagged edges
(unflagged entries stay undefined). -/
noncomputable def edgePoints (values : Fin 8 → ℝ) (pos step : V3) (e : Fin 12) :
    Option V3 :=
  if edgeFlagged (cubeIndex values) e then some (edgePoint values pos step e) else none

/-- The triangle emission loop of _marchCube: walk the triangle list three
edge indices at a time, skipping a triangle when any of its three edge
points is undefined, otherwise emitting its three vertices in order. -/
def triVertices (pts : Nat → Option V3) : List Nat → List V3
  | e0 :: e1 :: e2 :: rest =>
    match pts e0, pts e1, pts e2 with
    | some p0, some p1, some p2 => p0 :: p1 :: p2 :: triVertices pts rest
    | _, _, _ => triVertices pts rest
  | _ => []

/-- Mesher._marchCube restricted to its vertex emission: compute the
corner-sign index, return immediately on configurations 0 and 255, return
when no edge is flagged, then emit the triangle vertices from the
interpolated edge points. -/
noncomputable def marchCubeVertices (values : Fin 8 → ℝ) (pos step : V3) : List V3 :=
  let idx := cubeIndex values
  if idx = 0 ∨ idx = 255 then []
  else if MarchingCubesTables.edgeTable.getD idx 0 = 0 then []
  else
    triVertices (fun n => if h : n < 12 then edgePoints values pos step ⟨n, h⟩ else none)
      (MarchingCubesTables.triTable.getD idx [])

/-- The options object of marchingCubes, restricted to the fields the
claims concern: each may be absent, or present with any natural value. -/
structure MCOptions where
  resolution : Option Nat
  maxMemoryMB : Option Nat

/-- The JavaScript defaulting idiom used for options: an absent
or zero (falsy) value falls back to the default. -/
def orDefault (v : Option Nat) (d : Nat) : Nat :=
  match v with
  | none => d
  | some n => if n = 0 then d else n

/-- Largest k at most b with k*k*k at most n, searching downward from b. -/
def natCbrtFrom (n : Nat) : Nat → Nat
  | 0 => 0
  | k + 1 => if (k + 1) * (k + 1) * (k + 1) ≤ n then k + 1 else natCbrtFrom n k

/-- Integer cube root: Math.floor(Math.pow(n, 1/3)) for a natural n. The
downward search starts at 2 ^ (log2 n / 3 + 2), a bound strictly above the
cube root of n, so the search always finds the largest k with k * k * k
at most n. -/
def natCbrt (n : Nat) : Nat := natCbrtFrom n (2 ^ (n.log2 / 3 + 2))

/-- The maximum safe resolution reported by the memory-limit error:
Math.floor(Math.pow(maxMemoryMB * 1024 * 1024 / 4, 1/3)) - 1. -/
def maxSafeResolution (maxMemoryMB : Nat) : Nat :=
  natCbrt (maxMemoryMB * 1024 * 1024 / 4) - 1

/-- The mesh record marchingCubes returns. The flattened Float32Array and
Uint32Array contents are modelled as lists, vertices and normals grouped
in threes. -/
structure Mesh where
  vertices : List V3
  normals : List V3
  indices : List Nat
  vertexCount : Nat
  triangleCount : Nat
  bounds : B3

/-- Observable allocation events of one marchingCubes call; allocGrid is
the `new Float32Array((resolution + 1) ** 3)` voxel grid allocation. -/
inductive MCEvent where
  | allocGrid (size : Nat)
deriving DecidableEq

/-- The error thrown by the memory check, carrying the requested effective
resolution and the recommended maximum safe resolution that the thrown
message renders. -/
inductive MCError where
  | memoryLimit (resolution maxResolution : Nat)
deriving DecidableEq

/-- The eight grid fetches of one cube in marchingCubes, in source corner
order. -/
def cubeValues (grid : Nat → Nat → Nat → ℝ) (i j k : Nat) : Fin 8 → ℝ := fun c =>
  [grid i j k, grid (i + 1) j k, grid (i + 1) j (k + 1), grid i j (k + 1),
   grid i (j + 1) k, grid (i + 1) (j + 1) k, grid (i + 1) (j + 1) (k + 1),
   grid i (j + 1) (k + 1)].getD c.val 0

/-- Mesher.marchingCubes: option defaulting, the memory-budget check (placed
before the grid allocation), grid sampling, the cube loop, and the returned
mesh record. The first component lists the allocation events that occurred;
a memory-limit failure returns the error with an empty event list because
the check runs before the Float32Array grid is allocated. -/
noncomputable def Mesher.marchingCubes (field : Field) (options : MCOptions) :
    List MCEvent × Except MCError Mesh :=
  let resolution := orDefault options.resolution 32
  let bounds := field.boundsOr
  let maxMemoryMB := orDefault options.maxMemoryMB 512
  let estimatedMemory : ℚ := ((resolution + 1) ^ 3 * 4 : ℚ) / (1024 * 1024)
  if estimatedMemory > (maxMemoryMB : ℚ) then
    ([], Except.error (MCError.memoryLimit resolution (maxSafeResolution maxMemoryMB)))
  else
    let bmin := bounds.min
    let bmax := bounds.max
    let step : V3 := ⟨(bmax.x - bmin.x) / (resolution : ℝ),
                      (bmax.y - bmin.y) / (resolution : ℝ),
                      (bmax.z - bmin.z) / (resolution : ℝ)⟩
    let grid : Nat → Nat → Nat → ℝ := fun i j k =>
      field.evaluate ⟨bmin.x + i * step.x, bmin.y + j * step.y, bmin.z + k * step.z⟩
    let vertices :=
      (List.range resolution).flatMap fun k =>
        (List.range resolution).flatMap fun j =>
          (List.range resolution).flatMap fun i =>
            marchCubeVertices (cubeValues grid i j k)
              ⟨bmin.x + i * step.x, bmin.y + j * step.y, bmin.z + k * step.z⟩ step
    let normals := vertices.map fun v => field.gradient v 0.001
    let indices := List.range vertices.length
    ([MCEvent.allocGrid ((resolution + 1) ^ 3)],
     Except.ok
       { vertices := vertices, normals := normals, indices := indices,
         vertexCount := vertices.length, triangleCount := indices.length / 3,
         bounds := bounds })

/-- One DataView write of Mesher.toSTL: the byte offset plus the written
value, tagged by the width of the setter used. -/
inductive STLWrite where
  | u8 (offset : Nat) (value : Nat)
  | u16 (offset : Nat) (value : Nat)
  | u32 (offset : Nat) (value : Nat)
  | f32 (offset : Nat) (value : ℝ)

/-- First byte past a write. -/
def STLWrite.endOffset : STLWrite → Nat
  | u8 o _ => o + 1
  | u16 o _ => o + 2
  | u32 o _ => o + 4
  | f32 o _ => o + 4

/-- The geometric face normal of toSTL: the cross product of the two edge
vectors out of v0, normalized when its length is positive. -/
noncomputable def stlFaceNormal (v0 v1 v2 : V3) : V3 :=
  let edge1 := v1.sub v0
  let edge2 := v2.sub v0
  let n := edge1.cross edge2
  let len := Real.sqrt (n.x * n.x + n.y * n.y + n.z * n.z)
  if 0 < len then ⟨n.x / len, n.y / len, n.z / len⟩ else n

/-- The 50 bytes of writes of one triangle record starting at off: 12 bytes
face normal, three times 12 bytes vertices, 2 bytes attribute count
(written as 0). -/
noncomputable def triangleWrites (off : Nat) (v0 v1 v2 : V3) : List STLWrite :=
  let n := stlFaceNormal v0 v1 v2
  [.f32 off n.x, .f32 (off + 4) n.y, .f32 (off + 8) n.z,
   .f32 (off + 12) v0.x, .f32 (off + 16) v0.y, .f32 (off + 20) v0.z,
   .f32 (off + 24) v1.x, .f32 (off + 28) v1.y, .f32 (off + 32) v1.z,
   .f32 (off + 36) v2.x, .f32 (off + 40) v2.y, .f32 (off + 44) v2.z,
   .u16 (off + 48) 0]

/-- Vertex lookup of toSTL through the index array (the source reads the
three floats at indices[i] * 3 of the flattened mesh.vertices array; here
the vertex list is already grouped). -/
def meshVertex (vertices : List V3) (idx : Nat) : V3 := vertices.getD idx ⟨0, 0, 0⟩

/-- The triangle loop of toSTL over mesh.vertices: consume the index list in
triples, advancing the write offset by 50 bytes per triangle. -/
noncomputable def stlTriangleLoop (vertices : List V3) : List Nat → Nat → List STLWrite
  | i0 :: i1 :: i2 :: rest, off =>
    triangleWrites off (meshVertex vertices i0) (meshVertex vertices i1)
      (meshVertex vertices i2) ++ stlTriangleLoop vertices rest (off + 50)
  | _, _ => []

/-- The header writes of toSTL: the first min(length, 80) character codes of
the header string. -/
def stlHeaderWrites (name : String) : List STLWrite :=
  let header := "FIXED Marching Cubes - " ++ name
  (List.range (Nat.min header.length 80)).map fun i =>
    .u8 i (header.toList.getD i ' ').toNat

/-- Mesher.toSTL modelled as the allocated buffer byte size
(84 + triangleCount * 50, the ArrayBuffer argument) together with the full
ordered write list: the header bytes, the 4-byte little-endian triangle
count at offset 80, then the triangle records from offset 84. -/
noncomputable def Mesher.toSTL (mesh : Mesh) (name : String) : Nat × List STLWrite :=
  (84 + mesh.triangleCount * 50,
   stlHeaderWrites name ++ [.u32 80 mesh.triangleCount] ++
     stlTriangleLoop mesh.vertices mesh.indices 84)

/-
Shared lemmas about the embedded definitions.
-/

/-- The cube index is always below 256. -/
theorem cubeIndexB_lt_256 : ∀ b : Fin 8 → Bool, cubeIndexB b < 256 := by decide

/-- Bit i of the cube index is exactly the classification of corner i. -/
theorem cubeIndexB_testBit : ∀ (b : Fin 8 → Bool) (i : Fin 8),
    (cubeIndexB b).testBit i.val = b i := by decide

/-- The cube index is 255 exactly when every corner is classified inside. -/
theorem cubeIndexB_eq_255 : ∀ b : Fin 8 → Bool,
    cubeIndexB b = 255 ↔ ∀ i, b i = true := by decide

/-- The cube index is 0 exactly when no corner is classified inside. -/
theorem cubeIndexB_eq_0 : ∀ b : Fin 8 → Bool,
    cubeIndexB b = 0 ↔ ∀ i, b i = false := by decide

/-- The transcribed edge table flags an edge only when its two endpoint
corners carry different classification bits in the configuration index. -/
theorem edgeTable_sign_change : ∀ (idx : Fin 256) (e : Fin 12),
    (MarchingCubesTables.edgeTable.getD idx.val 0).testBit e.val = true →
    idx.val.testBit (conn e).1.val ≠ idx.val.testBit (conn e).2.val := by decide

/-- On a flagged edge, the two corner samples cannot be on the same side of
the surface: their inside classifications differ. -/
theorem flagged_corner_signs (values : Fin 8 → ℝ) (e : Fin 12)
    (h : edgeFlagged (cubeIndex values) e = true) :
    ¬(values (conn e).1 ≤ 0 ↔ values (conn e).2 ≤ 0) := by
  intro hiff
  have hlt := cubeIndexB_lt_256 fun i => decide (values i ≤ 0)
  have hne := edgeTable_sign_change ⟨cubeIndex values, hlt⟩ e h
  have h1 := cubeIndexB_testBit (fun i => decide (values i ≤ 0)) (conn e).1
  have h2 := cubeIndexB_testBit (fun i => decide (values i ≤ 0)) (conn e).2
  apply hne
  show (cubeIndex values).testBit (conn e).1.val = (cubeIndex values).testBit (conn e).2.val
  rw [cubeIndex, h1, h2]
  exact decide_eq_decide.mpr hiff

/-- On a flagged edge, the interpolation denominator is strictly positive. -/
theorem flagged_denominator_pos (values : Fin 8 → ℝ) (e : Fin 12)
    (h : edgeFlagged (cubeIndex values) e = true) :
    0 < |values (conn e).1| + |values (conn e).2| := by
  rcases (abs_nonneg (values (conn e).1)).lt_or_eq with h1 | h1
  · linarith [abs_nonneg (values (conn e).2)]
  rcases (abs_nonneg (values (conn e).2)).lt_or_eq with h2 | h2
  · linarith [abs_nonneg (values (conn e).1)]
  exact absurd (iff_of_true (by rw [← abs_eq_zero.mp h1.symm]) (by rw [← abs_eq_zero.mp h2.symm]))
    (flagged_corner_signs values e h)

/-- Every vertex the triangle loop emits comes from some defined edge point. -/
theorem triVertices_mem (pts : Nat → Option V3) :
    ∀ (l : List Nat) (v : V3), v ∈ triVertices pts l → ∃ n, pts n = some v
  | e0 :: e1 :: e2 :: rest, v, h => by
    rcases h0 : pts e0 with _ | p0 <;> rcases h1 : pts e1 with _ | p1 <;>
      rcases h2 : pts e2 with _ | p2 <;>
      simp only [triVertices, h0, h1, h2] at h
    all_goals first
      | exact triVertices_mem pts rest v h
      | skip
    rcases List.mem_cons.mp h with rfl | h
    · exact ⟨e0, h0⟩
    rcases List.mem_cons.mp h with rfl | h
    · exact ⟨e1, h1⟩
    rcases List.mem_cons.mp h with rfl | h
    · exact ⟨e2, h2⟩
    exact triVertices_mem pts rest v h
  | [], v, h => by simp [triVertices] at h
  | [e0], v, h => by simp [triVertices] at h
  | [e0, e1], v, h => by simp [triVertices] at h

/-- Every vertex emitted by one cube march is a flagged-edge interpolation
point. -/
theorem marchCubeVertices_mem (values : Fin 8 → ℝ) (pos step : V3) (v : V3)
    (h : v ∈ marchCubeVertices values pos step) :
    ∃ e : Fin 12, edgeFlagged (cubeIndex values) e = true ∧
      v = edgePoint values pos step e := by
  rw [marchCubeVertices] at h
  split at h
  · cases h
  split at h
  · cases h
  obtain ⟨n, hn⟩ := triVertices_mem _ _ v h
  by_cases hlt : n < 12
  · rw [dif_pos hlt] at hn
    rw [edgePoints] at hn
    split at hn
    · exact ⟨⟨n, hlt⟩, by assumption, (Option.some_inj.mp hn).symm⟩
    · cases hn
  · rw [dif_neg hlt] at hn; cases hn

/-- Each corner offset coordinate is 0 or 1. -/
theorem cornerOffset_mem : ∀ c : Fin 8,
    ((cornerOffset c).1 = 0 ∨ (cornerOffset c).1 = 1) ∧
    ((cornerOffset c).2.1 = 0 ∨ (cornerOffset c).2.1 = 1) ∧
    ((cornerOffset c).2.2 = 0 ∨ (cornerOffset c).2.2 = 1) := by decide

/-- A parameter-t lerp between two 0-or-1 endpoints stays in the unit
interval. -/
theorem lerp01_bounds (a b t : ℝ) (ha : a = 0 ∨ a = 1) (hb : b = 0 ∨ b = 1)
    (h0 : 0 ≤ t) (h1 : t ≤ 1) : 0 ≤ a + t * (b - a) ∧ a + t * (b - a) ≤ 1 := by
  rcases ha with ha | ha <;> rcases hb with hb | hb <;> subst ha <;> subst hb <;>
    constructor <;> nlinarith

/-- On a flagged edge, the interpolation parameter lies in the unit
interval. -/
theorem interp_t_bounds (values : Fin 8 → ℝ) (e : Fin 12)
    (h : edgeFlagged (cubeIndex values) e = true) :
    0 ≤ |values (conn e).1| / (|values (conn e).1| + |values (conn e).2|) ∧
    |values (conn e).1| / (|values (conn e).1| + |values (conn e).2|) ≤ 1 := by
  have hpos := flagged_denominator_pos values e h
  constructor
  · exact div_nonneg (abs_nonneg _) hpos.le
  · rw [div_le_one hpos]
    linarith [abs_nonneg (values (conn e).2)]

/-- A flagged-edge interpolation point stays inside the cell spanned by pos
and a nonnegative step. -/
theorem edgePoint_in_cell (values : Fin 8 → ℝ) (e : Fin 12) (pos step : V3)
    (h : edgeFlagged (cubeIndex values) e = true)
    (hx : 0 ≤ step.x) (hy : 0 ≤ step.y) (hz : 0 ≤ step.z) :
    (pos.x ≤ (edgePoint values pos step e).x ∧
      (edgePoint values pos step e).x ≤ pos.x + step.x) ∧
    (pos.y ≤ (edgePoint values pos step e).y ∧
      (edgePoint values pos step e).y ≤ pos.y + step.y) ∧
    (pos.z ≤ (edgePoint values pos step e).z ∧
      (edgePoint values pos step e).z ≤ pos.z + step.z) := by
  obtain ⟨ht0, ht1⟩ := interp_t_bounds values e h
  obtain ⟨hc1x, hc1y, hc1z⟩ := cornerOffset_mem (conn e).1
  obtain ⟨hc2x, hc2y, hc2z⟩ := cornerOffset_mem (conn e).2
  have hcast : ∀ n : Nat, n = 0 ∨ n = 1 → ((n : ℝ) = 0 ∨ (n : ℝ) = 1) := by
    rintro n (rfl | rfl) <;> simp
  have bx := lerp01_bounds _ _ _ (hcast _ hc1x) (hcast _ hc2x) ht0 ht1
  have bY := lerp01_bounds _ _ _ (hcast _ hc1y) (hcast _ hc2y) ht0 ht1
  have bz := lerp01_bounds _ _ _ (hcast _ hc1z) (hcast _ hc2z) ht0 ht1
  rw [edgePoint]
  refine ⟨⟨?_, ?_⟩, ⟨?_, ?_⟩, ⟨?_, ?_⟩⟩ <;> simp only
  · nlinarith [bx.1, bx.2]
  · nlinarith [bx.1, bx.2]
  · nlinarith [bY.1, bY.2]
  · nlinarith [bY.1, bY.2]
  · nlinarith [bz.1, bz.2]
  · nlinarith [bz.1, bz.2]

/-- The orDefault fallback of a positive default is positive. -/
theorem orDefault_pos (v : Option Nat) (d : Nat) (hd : 0 < d) : 0 < orDefault v d := by
  cases v with
  | none => rw [orDefault]; exact hd
  | some n =>
    rw [orDefault]
    split
    · exact hd
    · omega

/-- A coordinate confined to cell i of a res-fold uniform subdivision of
the interval from lo to hi stays inside that interval. -/
theorem cell_coord_in_bounds (lo hi : ℝ) (res i : ℕ) (hres : 0 < res) (hle : lo ≤ hi)
    (hilt : i < res) (v : ℝ)
    (h1 : lo + i * ((hi - lo) / res) ≤ v)
    (h2 : v ≤ lo + i * ((hi - lo) / res) + (hi - lo) / res) :
    lo ≤ v ∧ v ≤ hi := by
  have hres' : (0:ℝ) < (res:ℝ) := by exact_mod_cast hres
  have hstep : 0 ≤ (hi - lo) / (res:ℝ) := div_nonneg (by linarith) hres'.le
  have hil : ((i:ℝ) + 1) ≤ (res:ℝ) := by exact_mod_cast hilt
  have hcancel : (res:ℝ) * ((hi - lo) / (res:ℝ)) = hi - lo := by
    field_simp
  have hnn : 0 ≤ (i:ℝ) * ((hi - lo) / (res:ℝ)) := mul_nonneg (Nat.cast_nonneg i) hstep
  have hmul : ((i:ℝ) + 1) * ((hi - lo) / (res:ℝ)) ≤ (res:ℝ) * ((hi - lo) / (res:ℝ)) :=
    mul_le_mul_of_nonneg_right hil hstep
  constructor
  · linarith
  · nlinarith [hmul, hcancel]

/-- Every vertex of a mesh successfully produced by marchingCubes lies
inside the field's effective bounds (when those bounds are valid): each of
its coordinates is a well-defined real confined to the sampled box. -/
theorem marchingCubes_vertices_in_bounds (field : Field) (options : MCOptions)
    (tr : List MCEvent) (m : Mesh)
    (heq : Mesher.marchingCubes field options = (tr, Except.ok m))
    (hvalid : field.boundsOr.isValid) :
    ∀ v ∈ m.vertices,
      (field.boundsOr.min.x ≤ v.x ∧ v.x ≤ field.boundsOr.max.x) ∧
      (field.boundsOr.min.y ≤ v.y ∧ v.y ≤ field.boundsOr.max.y) ∧
      (field.boundsOr.min.z ≤ v.z ∧ v.z ≤ field.boundsOr.max.z) := by
  have hres : 0 < orDefault options.resolution 32 := orDefault_pos _ _ (by norm_num)
  have hres' : (0:ℝ) < ((orDefault options.resolution 32 : ℕ) : ℝ) := by
    exact_mod_cast hres
  simp only [Mesher.marchingCubes] at heq
  split at heq
  · simp [Prod.mk.injEq] at heq
  · rw [Prod.mk.injEq] at heq
    obtain ⟨htr, hm⟩ := heq
    injection hm with hm
    subst hm
    intro v hv
    dsimp only at hv
    obtain ⟨k, hk, hv⟩ := List.exists_of_mem_flatMap hv
    obtain ⟨j, hj, hv⟩ := List.exists_of_mem_flatMap hv
    obtain ⟨i, hi, hv⟩ := List.exists_of_mem_flatMap hv
    rw [List.mem_range] at hk hj hi
    obtain ⟨e2, hf2, rfl⟩ := marchCubeVertices_mem _ _ _ _ hv
    have hsx : (0:ℝ) ≤ (field.boundsOr.max.x - field.boundsOr.min.x) /
        ((orDefault options.resolution 32 : ℕ) : ℝ) :=
      div_nonneg (sub_nonneg.mpr hvalid.1) hres'.le
    have hsy : (0:ℝ) ≤ (field.boundsOr.max.y - field.boundsOr.min.y) /
        ((orDefault options.resolution 32 : ℕ) : ℝ) :=
      div_nonneg (sub_nonneg.mpr hvalid.2.1) hres'.le
    have hsz : (0:ℝ) ≤ (field.boundsOr.max.z - field.boundsOr.min.z) /
        ((orDefault options.resolution 32 : ℕ) : ℝ) :=
      div_nonneg (sub_nonneg.mpr hvalid.2.2) hres'.le
    have hin := edgePoint_in_cell _ e2
      ⟨field.boundsOr.min.x + (i:ℝ) *
          ((field.boundsOr.max.x - field.boundsOr.min.x) /
            ((orDefault options.resolution 32 : ℕ) : ℝ)),
       field.boundsOr.min.y + (j:ℝ) *
          ((field.boundsOr.max.y - field.boundsOr.min.y) /
            ((orDefault options.resolution 32 : ℕ) : ℝ)),
       field.boundsOr.min.z + (k:ℝ) *
          ((field.boundsOr.max.z - field.boundsOr.min.z) /
            ((orDefault options.resolution 32 : ℕ) : ℝ))⟩
      ⟨(field.boundsOr.max.x - field.boundsOr.min.x) /
          ((orDefault options.resolution 32 : ℕ) : ℝ),
       (field.boundsOr.max.y - field.boundsOr.min.y) /
          ((orDefault options.resolution 32 : ℕ) : ℝ),
       (field.boundsOr.max.z - field.boundsOr.min.z) /
          ((orDefault options.resolution 32 : ℕ) : ℝ)⟩
      hf2 hsx hsy hsz
    dsimp only at hin
    exact ⟨cell_coord_in_bounds _ _ _ _ hres hvalid.1 hi _ hin.1.1 hin.1.2,
      cell_coord_in_bounds _ _ _ _ hres hvalid.2.1 hj _ hin.2.1.1 hin.2.1.2,
      cell_coord_in_bounds _ _ _ _ hres hvalid.2.2 hk _ hin.2.2.1 hin.2.2.2⟩

/-
Claim theorems.
-/

/-- Claim C7: for all fields a and b and every point p, Boolean.difference
evaluates to exactly max(a.evaluate(p), -b.evaluate(p)). -/
theorem claim7_difference_exact (a b : Field) (p : V3) :
    (Boolean.difference a b).evaluate p = max (a.evaluate p) (-(b.evaluate p)) := rfl

/-- Claim C2: on every flagged edge the interpolation denominator
abs(v1) + abs(v2) is strictly positive, so the degenerate case of two zero
corner magnitudes cannot occur on a flagged edge, the parameter
t = abs(v1) / (abs(v1) + abs(v2)) is a well-defined real in the unit
interval, and every vertex coordinate emitted into the mesh is a
well-defined real and never NaN: each vertex emitted by a cube march is the
t-interpolated point of some flagged edge, confined to its cell, and every
vertex of a mesh produced by a full marchingCubes run is confined to the
field's valid bounds. -/
theorem claim2_flagged_edge_interpolation_safe (values : Fin 8 → ℝ) (e : Fin 12)
    (hflag : edgeFlagged (cubeIndex values) e = true)
    (pos step : V3) (hx : 0 ≤ step.x) (hy : 0 ≤ step.y) (hz : 0 ≤ step.z)
    (w : V3) (hw : w ∈ marchCubeVertices values pos step) :
    0 < |values (conn e).1| + |values (conn e).2| ∧
    ¬(values (conn e).1 = 0 ∧ values (conn e).2 = 0) ∧
    (0 ≤ |values (conn e).1| / (|values (conn e).1| + |values (conn e).2|) ∧
     |values (conn e).1| / (|values (conn e).1| + |values (conn e).2|) ≤ 1) ∧
    (∃ e2 : Fin 12, edgeFlagged (cubeIndex values) e2 = true ∧
       w = edgePoint values pos step e2) ∧
    ((pos.x ≤ w.x ∧ w.x ≤ pos.x + step.x) ∧ (pos.y ≤ w.y ∧ w.y ≤ pos.y + step.y) ∧
     (pos.z ≤ w.z ∧ w.z ≤ pos.z + step.z)) ∧
    (∀ (field : Field) (options : MCOptions) (tr : List MCEvent) (m : Mesh),
       Mesher.marchingCubes field options = (tr, Except.ok m) →
       field.boundsOr.isValid →
       ∀ v ∈ m.vertices,
         (field.boundsOr.min.x ≤ v.x ∧ v.x ≤ field.boundsOr.max.x) ∧
         (field.boundsOr.min.y ≤ v.y ∧ v.y ≤ field.boundsOr.max.y) ∧
         (field.boundsOr.min.z ≤ v.z ∧ v.z ≤ field.boundsOr.max.z)) := by
  refine ⟨flagged_denominator_pos values e hflag, ?_, interp_t_bounds values e hflag,
    marchCubeVertices_mem values pos step w hw, ?_,
    fun field options tr m heq hvalid =>
      marchingCubes_vertices_in_bounds field options tr m heq hvalid⟩
  · rintro ⟨h1, h2⟩
    exact flagged_corner_signs values e hflag (by rw [h1, h2])
  · obtain ⟨e2, hf2, rfl⟩ := marchCubeVertices_mem values pos step w hw
    exact edgePoint_in_cell values e2 pos step hf2 hx hy hz

/-- The corner sample ramp used to exercise claim C2: corner i holds the
value i, so corner 0 sits on the surface and the others are outside. -/
noncomputable def rampCorners : Fin 8 → ℝ := fun i => (i.val : ℝ)

/-- Witness for claim C2 at the ramp cube, the unit cell, and the emitted
vertex at the origin. -/
theorem claim2_witness :
    edgeFlagged (cubeIndex rampCorners) (0 : Fin 12) = true ∧
    (0:ℝ) ≤ 1 ∧
    V3.mk 0 0 0 ∈ marchCubeVertices rampCorners ⟨0,0,0⟩ ⟨1,1,1⟩ ∧
    (0 < |rampCorners (conn 0).1| + |rampCorners (conn 0).2| ∧
     ¬(rampCorners (conn 0).1 = 0 ∧ rampCorners (conn 0).2 = 0) ∧
     (0 ≤ |rampCorners (conn 0).1| / (|rampCorners (conn 0).1| + |rampCorners (conn 0).2|) ∧
      |rampCorners (conn 0).1| / (|rampCorners (conn 0).1| + |rampCorners (conn 0).2|) ≤ 1) ∧
     (∃ e2 : Fin 12, edgeFlagged (cubeIndex rampCorners) e2 = true ∧
        V3.mk 0 0 0 = edgePoint rampCorners ⟨0,0,0⟩ ⟨1,1,1⟩ e2) ∧
     (((V3.mk 0 0 0).x ≤ (V3.mk 0 0 0).x ∧
        (V3.mk 0 0 0).x ≤ (V3.mk 0 0 0).x + (V3.mk 1 1 1).x) ∧
      ((V3.mk 0 0 0).y ≤ (V3.mk 0 0 0).y ∧
        (V3.mk 0 0 0).y ≤ (V3.mk 0 0 0).y + (V3.mk 1 1 1).y) ∧
      ((V3.mk 0 0 0).z ≤ (V3.mk 0 0 0).z ∧
        (V3.mk 0 0 0).z ≤ (V3.mk 0 0 0).z + (V3.mk 1 1 1).z)) ∧
     (∀ (field : Field) (options : MCOptions) (tr : List MCEvent) (m : Mesh),
        Mesher.marchingCubes field options = (tr, Except.ok m) →
        field.boundsOr.isValid →
        ∀ v ∈ m.vertices,
          (field.boundsOr.min.x ≤ v.x ∧ v.x ≤ field.boundsOr.max.x) ∧
          (field.boundsOr.min.y ≤ v.y ∧ v.y ≤ field.boundsOr.max.y) ∧
          (field.boundsOr.min.z ≤ v.z ∧ v.z ≤ field.boundsOr.max.z))) := by
  have hcube : cubeIndex rampCorners = 1 := by
    have hb : (fun i : Fin 8 => decide (rampCorners i ≤ 0)) = fun i => decide (i = 0) := by
      funext i
      fin_cases i <;> norm_num [rampCorners] <;> decide
    rw [cubeIndex, hb]
    decide
  have hflagW : edgeFlagged (cubeIndex rampCorners) (0 : Fin 12) = true := by
    rw [hcube]; decide
  have hmem : V3.mk 0 0 0 ∈ marchCubeVertices rampCorners ⟨0,0,0⟩ ⟨1,1,1⟩ := by
    have he : MarchingCubesTables.edgeTable.getD 1 0 = 265 := by decide
    have ht : MarchingCubesTables.triTable.getD 1 [] = [0, 8, 3] := by decide
    have hconn : conn ⟨0, by norm_num⟩ = (⟨0, by norm_num⟩, ⟨1, by norm_num⟩) := by decide
    have hc0 : cornerOffset ⟨0, by norm_num⟩ = (0, 0, 0) := by decide
    have hc1 : cornerOffset ⟨1, by norm_num⟩ = (1, 0, 0) := by decide
    have hpt : edgePoint rampCorners ⟨0,0,0⟩ ⟨1,1,1⟩ ⟨0, by norm_num⟩ = V3.mk 0 0 0 := by
      simp only [edgePoint, hconn, hc0, hc1, rampCorners]
      norm_num
    have hf0 : edgeFlagged 1 ⟨0, by norm_num⟩ = true := by decide
    have hf8 : edgeFlagged 1 ⟨8, by norm_num⟩ = true := by decide
    have hf3 : edgeFlagged 1 ⟨3, by norm_num⟩ = true := by decide
    simp only [marchCubeVertices, hcube, he, ht]
    norm_num
    rw [triVertices]
    simp only [edgePoints, hcube, hf0, hf8, hf3, hpt]
    simp [List.mem_cons]
  exact ⟨hflagW, by norm_num, hmem,
    claim2_flagged_edge_interpolation_safe rampCorners 0 hflagW ⟨0,0,0⟩ ⟨1,1,1⟩
      (by norm_num) (by norm_num) (by norm_num) (V3.mk 0 0 0) hmem⟩

/-- Counterexample to claim C3 as stated: a cube whose eight corner values
are all -1 has every corner inside (value ≤ 0), yet its corner-sign index
is 255, not 0: index 0 does not correspond to a fully inside cube. -/
theorem claim3_counterexample :
    (∀ i : Fin 8, (fun _ : Fin 8 => (-1 : ℝ)) i ≤ 0) ∧
    cubeIndex (fun _ : Fin 8 => (-1 : ℝ)) = 255 := by
  constructor
  · intro i; norm_num
  · have hb : (fun i : Fin 8 => decide ((fun _ : Fin 8 => (-1:ℝ)) i ≤ 0)) = fun _ => true := by
      funext i; norm_num
    rw [cubeIndex, hb]
    decide

/-- Claim C3 (amended): bit i of the corner-sign index is set exactly when
the corner value at corner i is ≤ 0; index 255 corresponds to a fully
inside cube (all corner values ≤ 0) and index 0 to a fully outside cube
(all corner values positive); cubes with index 0 or 255 are skipped
immediately, emitting no triangles. -/
theorem claim3_cube_index_amended (values : Fin 8 → ℝ) :
    (∀ i : Fin 8, (cubeIndex values).testBit i.val = decide (values i ≤ 0)) ∧
    (cubeIndex values = 255 ↔ ∀ i, values i ≤ 0) ∧
    (cubeIndex values = 0 ↔ ∀ i, 0 < values i) ∧
    (∀ pos step : V3, cubeIndex values = 0 ∨ cubeIndex values = 255 →
      marchCubeVertices values pos step = []) := by
  refine ⟨fun i => ?_, ?_, ?_, fun pos step h => ?_⟩
  · rw [cubeIndex]; exact cubeIndexB_testBit _ i
  · rw [cubeIndex, cubeIndexB_eq_255]; simp only [decide_eq_true_eq]
  · rw [cubeIndex, cubeIndexB_eq_0]; simp only [decide_eq_false_iff_not, not_le]
  · simp only [marchCubeVertices]; rw [if_pos h]

/-- Witness for claim C3 (amended) at the fully outside cube of constant
corner value 1. -/
theorem claim3_witness :
    (cubeIndex (fun _ : Fin 8 => (1 : ℝ)) = 0 ∨ cubeIndex (fun _ : Fin 8 => (1 : ℝ)) = 255) ∧
    marchCubeVertices (fun _ : Fin 8 => (1 : ℝ)) ⟨0,0,0⟩ ⟨1,1,1⟩ = [] := by
  have h0 : cubeIndex (fun _ : Fin 8 => (1 : ℝ)) = 0 := by
    have hb : (fun i : Fin 8 => decide ((fun _ : Fin 8 => (1:ℝ)) i ≤ 0)) = fun _ => false := by
      funext i; norm_num
    rw [cubeIndex, hb]
    decide
  exact ⟨Or.inl h0, (claim3_cube_index_amended _).2.2.2 _ _ (Or.inl h0)⟩

/-- Counterexample to claim C5 as stated: a capsule with coincident start
and end points does not throw; the construction succeeds. -/
theorem claim5_counterexample :
    (Primitives.capsule ⟨0,0,0⟩ ⟨0,0,0⟩ 1).isOk = true := by
  rw [Primitives.capsule, if_neg (by norm_num : ¬((1:ℝ) ≤ 0))]
  rfl

/-- Claim C5 (amended): sphere, box, cylinder, cone and capsule with a
non-positive radius or size, cylinder and cone with coincident endpoints,
and scale with a non-positive factor all fail at the constructing call;
the capsule alone performs no coincident-endpoint check: it constructs
successfully and its evaluation degenerates to the sphere distance about
the start point, with no evaluation-time failure. -/
theorem claim5_construction_amended :
    (∀ (c : V3) (r : ℝ), r ≤ 0 →
      Primitives.sphere c r = Except.error "Sphere radius must be positive") ∧
    (∀ (c s : V3), s.x ≤ 0 ∨ s.y ≤ 0 ∨ s.z ≤ 0 →
      Primitives.box c s = Except.error "Box dimensions must be positive") ∧
    (∀ (p q : V3) (r : ℝ), r ≤ 0 →
      Primitives.cylinder p q r = Except.error "Cylinder radius must be positive") ∧
    (∀ (p q : V3) (r : ℝ), 0 < r → V3.dist p q < 0.0001 →
      Primitives.cylinder p q r = Except.error "Cylinder start and end must be different") ∧
    (∀ (p q : V3) (r : ℝ), r ≤ 0 →
      Primitives.cone p q r = Except.error "Cone radius must be positive") ∧
    (∀ (p q : V3) (r : ℝ), 0 < r → V3.dist p q < 0.0001 →
      Primitives.cone p q r = Except.error "Cone base and tip must be different") ∧
    (∀ (p q : V3) (r : ℝ), r ≤ 0 →
      Primitives.capsule p q r = Except.error "Capsule radius must be positive") ∧
    (∀ (f : Field) (s c : V3), s.x ≤ 0 ∨ s.y ≤ 0 ∨ s.z ≤ 0 →
      Transform.scale f s c = Except.error "Scale factors must be positive") ∧
    (∀ (p : V3) (r : ℝ), 0 < r → (Primitives.capsule p p r).isOk = true) ∧
    (∀ (p q : V3) (r : ℝ), capsuleEvaluate p p r q = V3.dist q p - r) := by
  refine ⟨fun c r hr => ?_, fun c s hs => ?_, fun p q r hr => ?_, fun p q r hr hd => ?_,
    fun p q r hr => ?_, fun p q r hr hd => ?_, fun p q r hr => ?_, fun f s c hs => ?_,
    fun p r hr => ?_, fun p q r => ?_⟩
  · rw [Primitives.sphere, if_pos hr]
  · rw [Primitives.box, if_pos hs]
  · rw [Primitives.cylinder, if_pos hr]
  · rw [Primitives.cylinder, if_neg (not_le.mpr hr), if_pos hd]
  · rw [Primitives.cone, if_pos hr]
  · rw [Primitives.cone, if_neg (not_le.mpr hr), if_pos hd]
  · rw [Primitives.capsule, if_pos hr]
  · rw [Transform.scale, if_pos hs]
  · rw [Primitives.capsule, if_neg (not_le.mpr hr)]; rfl
  · simp only [capsuleEvaluate, V3.sub, V3.normalize, V3.length, V3.dot, V3.add, V3.scale,
      V3.dist, sub_self]
    norm_num [Real.sqrt_zero]

/-- Witness for claim C5 (amended): a negative sphere radius fails, a
zero-length cylinder fails, and a zero-length capsule of radius 1
constructs successfully. -/
theorem claim5_witness :
    ((-1:ℝ) ≤ 0 ∧
      Primitives.sphere ⟨0,0,0⟩ (-1) = Except.error "Sphere radius must be positive") ∧
    (0 < (1:ℝ) ∧ V3.dist ⟨0,0,0⟩ ⟨0,0,0⟩ < 0.0001 ∧
      Primitives.cylinder ⟨0,0,0⟩ ⟨0,0,0⟩ 1 =
        Except.error "Cylinder start and end must be different") ∧
    (0 < (1:ℝ) ∧ (Primitives.capsule ⟨0,0,0⟩ ⟨0,0,0⟩ 1).isOk = true) := by
  have hdist : V3.dist (V3.mk 0 0 0) (V3.mk 0 0 0) < 0.0001 := by
    simp only [V3.dist, V3.sub, V3.length]
    norm_num [Real.sqrt_zero]
  exact ⟨⟨by norm_num, claim5_construction_amended.1 _ _ (by norm_num)⟩,
    ⟨by norm_num, hdist,
      claim5_construction_amended.2.2.2.1 _ _ _ (by norm_num) hdist⟩,
    ⟨by norm_num, claim5_construction_amended.2.2.2.2.2.2.2.2.1 _ _ (by norm_num)⟩⟩

/-- The square root of 25 is 5. -/
theorem sqrt_twentyfive : Real.sqrt 25 = 5 := by
  rw [show (25:ℝ) = 5^2 by norm_num]
  exact Real.sqrt_sq (by norm_num)

/-- Counterexample to claim C6 as stated: the box of size 10 centered at the
origin has its faces at distance 5 from the center, so the sample at
(10, 0, 0) is 5 units outside the face, and the evaluation returns 5, not
approximately 0. -/
theorem claim6_counterexample :
    boxEvaluate ⟨0,0,0⟩ ⟨10,10,10⟩ ⟨10,0,0⟩ = 5 ∧
    ¬|boxEvaluate ⟨0,0,0⟩ ⟨10,10,10⟩ ⟨10,0,0⟩| < 1 := by
  have h5 : boxEvaluate ⟨0,0,0⟩ ⟨10,10,10⟩ ⟨10,0,0⟩ = 5 := by
    simp only [boxEvaluate, V3.length]
    norm_num
    exact sqrt_twentyfive
  refine ⟨h5, ?_⟩
  rw [h5]
  norm_num

/-- Claim C6 (amended): for box(center 0, size (10,10,10)), the face lies at
x = 5, where the evaluation returns 0; the sample at (10,0,0) is 5 units
outside and returns 5; the sample at the center returns -5. -/
theorem claim6_box_amended :
    boxEvaluate ⟨0,0,0⟩ ⟨10,10,10⟩ ⟨10,0,0⟩ = 5 ∧
    boxEvaluate ⟨0,0,0⟩ ⟨10,10,10⟩ ⟨5,0,0⟩ = 0 ∧
    boxEvaluate ⟨0,0,0⟩ ⟨10,10,10⟩ ⟨0,0,0⟩ = -5 := by
  refine ⟨?_, ?_, ?_⟩
  · simp only [boxEvaluate, V3.length]
    norm_num
    exact sqrt_twentyfive
  · simp only [boxEvaluate, V3.length]
    norm_num
  · simp only [boxEvaluate, V3.length]
    norm_num

/-- Claim C9: the polynomial smooth minimum of two distinct values reduces
to the plain minimum for every sufficiently small positive blend radius,
and the smooth maximum reduces to the plain maximum. -/
theorem claim9_smooth_blend_limit (a b : ℝ) (hab : a ≠ b) :
    ∃ k0 > 0, ∀ k, 0 < k → k < k0 →
      Boolean.smoothMinList [a, b] k = min a b ∧
      Boolean.smoothMaxList [a, b] k = max a b := by
  refine ⟨|a - b|, abs_pos.mpr (sub_ne_zero.mpr hab), fun k hk hkl => ?_⟩
  have hmax : max (k - |a - b|) 0 = 0 := max_eq_right (by linarith)
  constructor
  · simp [Boolean.smoothMinList, hmax]
  · simp [Boolean.smoothMaxList, hmax]

/-- Witness for claim C9 at the pair 0 and 1. -/
theorem claim9_witness :
    (0:ℝ) ≠ 1 ∧
    ∃ k0 > 0, ∀ k, 0 < k → k < k0 →
      Boolean.smoothMinList [(0:ℝ), 1] k = min 0 1 ∧
      Boolean.smoothMaxList [(0:ℝ), 1] k = max 0 1 :=
  ⟨by norm_num, claim9_smooth_blend_limit 0 1 (by norm_num)⟩

/-- The downward cube root search result always cubes to at most n. -/
theorem natCbrtFrom_cube_le (n : Nat) :
    ∀ b, natCbrtFrom n b * natCbrtFrom n b * natCbrtFrom n b ≤ n
  | 0 => by simp [natCbrtFrom]
  | b + 1 => by
    rw [natCbrtFrom]
    split
    · assumption
    · exact natCbrtFrom_cube_le n b

/-- The downward cube root search finds any admissible k below its bound. -/
theorem le_natCbrtFrom (n k : Nat) (hk : k * k * k ≤ n) :
    ∀ b, k ≤ b → k ≤ natCbrtFrom n b
  | 0, hb => by rw [natCbrtFrom]; exact hb
  | b + 1, hb => by
    rw [natCbrtFrom]
    split
    · exact hb
    · rename_i h
      refine le_natCbrtFrom n k hk b ?_
      rcases Nat.lt_or_ge k (b + 1) with h1 | h1
      · omega
      · exact absurd (le_trans (Nat.mul_le_mul (Nat.mul_le_mul h1 h1) h1) hk) h

/-- Any k whose cube is at most n lies below the search start of natCbrt. -/
theorem le_cbrt_search_start (n k : Nat) (hk : k * k * k ≤ n) :
    k ≤ 2 ^ (n.log2 / 3 + 2) := by
  by_contra hc
  push_neg at hc
  have hn : n < 2 ^ (n.log2 + 1) := by
    rw [Nat.log2_eq_log_two]
    exact Nat.lt_pow_succ_log_self (by norm_num) n
  have h3 : n.log2 + 1 ≤ 3 * (n.log2 / 3 + 2) := by omega
  have hp : (2:ℕ) ^ (n.log2 + 1) ≤ 2 ^ (3 * (n.log2 / 3 + 2)) :=
    Nat.pow_le_pow_right (by norm_num) h3
  have hsplit : (2:ℕ) ^ (3 * (n.log2 / 3 + 2)) =
      2 ^ (n.log2 / 3 + 2) * 2 ^ (n.log2 / 3 + 2) * 2 ^ (n.log2 / 3 + 2) := by
    rw [show 3 * (n.log2 / 3 + 2) = (n.log2 / 3 + 2) + (n.log2 / 3 + 2) + (n.log2 / 3 + 2)
      from by ring, pow_add, pow_add]
  have hkk : 2 ^ (n.log2 / 3 + 2) * 2 ^ (n.log2 / 3 + 2) * 2 ^ (n.log2 / 3 + 2) ≤
      k * k * k :=
    Nat.mul_le_mul (Nat.mul_le_mul hc.le hc.le) hc.le
  omega

/-- Any k whose cube is at most n is at most natCbrt n. -/
theorem le_natCbrt (n k : Nat) (hk : k * k * k ≤ n) : k ≤ natCbrt n :=
  le_natCbrtFrom n k hk _ (le_cbrt_search_start n k hk)

/-- The reported maximum safe resolution is indeed safe: its grid fits the
memory budget. -/
theorem maxSafeResolution_safe (mb : Nat) (h : 1 ≤ mb) :
    4 * (maxSafeResolution mb + 1) ^ 3 ≤ mb * 1024 * 1024 := by
  have h4 : mb * 1024 * 1024 / 4 = mb * 262144 := by
    have he : mb * 1024 * 1024 = mb * 262144 * 4 := by ring
    rw [he, Nat.mul_div_cancel _ (by norm_num)]
  have h1 : 1 ≤ mb * 262144 := le_trans h (Nat.le_mul_of_pos_right mb (by norm_num))
  have hcbrt : 1 ≤ natCbrt (mb * 262144) := le_natCbrt _ 1 (by simpa using h1)
  have hcube := natCbrtFrom_cube_le (mb * 262144) (2 ^ ((mb * 262144).log2 / 3 + 2))
  rw [maxSafeResolution, h4]
  rw [Nat.sub_add_cancel hcbrt]
  calc 4 * natCbrt (mb * 262144) ^ 3
      = natCbrt (mb * 262144) * natCbrt (mb * 262144) * natCbrt (mb * 262144) * 4 := by ring
    _ ≤ mb * 262144 * 4 := Nat.mul_le_mul_right 4 hcube
    _ = mb * 1024 * 1024 := by ring

/-- Claim C1: when the requested grid exceeds the memory budget, the mesher
fails with the memory-limit error carrying the effective resolution and a
computed maximum safe resolution (whose grid fits the budget), and the
returned allocation-event list is empty: the failure happens before the
voxel grid is allocated. -/
theorem claim1_memory_limit_fails_before_alloc (field : Field) (options : MCOptions)
    (h : orDefault options.maxMemoryMB 512 * 1024 * 1024 <
         (orDefault options.resolution 32 + 1) ^ 3 * 4) :
    Mesher.marchingCubes field options =
      ([], Except.error (MCError.memoryLimit (orDefault options.resolution 32)
        (maxSafeResolution (orDefault options.maxMemoryMB 512)))) ∧
    4 * (maxSafeResolution (orDefault options.maxMemoryMB 512) + 1) ^ 3 ≤
      orDefault options.maxMemoryMB 512 * 1024 * 1024 := by
  have hcond : (((orDefault options.resolution 32 : ℚ) + 1) ^ 3 * 4) / (1024 * 1024) >
      (orDefault options.maxMemoryMB 512 : ℚ) := by
    rw [gt_iff_lt, lt_div_iff₀ (by norm_num : (0:ℚ) < 1024 * 1024)]
    have h2 := (Nat.cast_lt (α := ℚ)).mpr h
    push_cast at h2
    linarith
  have heq : Mesher.marchingCubes field options =
      ([], Except.error (MCError.memoryLimit (orDefault options.resolution 32)
        (maxSafeResolution (orDefault options.maxMemoryMB 512)))) := by
    simp only [Mesher.marchingCubes]
    split
    · rfl
    · rename_i hno
      exact absurd hcond hno
  exact ⟨heq, maxSafeResolution_safe _ (orDefault_pos _ _ (by norm_num))⟩

/-- Witness for claim C1: resolution 64 with a 1 MB budget needs
65 cubed times 4 = 1098500 bytes, exceeding 1048576. -/
theorem claim1_witness :
    orDefault (some 1) 512 * 1024 * 1024 < (orDefault (some 64) 32 + 1) ^ 3 * 4 ∧
    (Mesher.marchingCubes ⟨fun _ => 1, none⟩ ⟨some 64, some 1⟩ =
      ([], Except.error (MCError.memoryLimit (orDefault (some 64) 32)
        (maxSafeResolution (orDefault (some 1) 512)))) ∧
    4 * (maxSafeResolution (orDefault (some 1) 512) + 1) ^ 3 ≤
      orDefault (some 1) 512 * 1024 * 1024) := by
  have h : orDefault (some 1) 512 * 1024 * 1024 < (orDefault (some 64) 32 + 1) ^ 3 * 4 := by
    decide
  exact ⟨h, claim1_memory_limit_fails_before_alloc ⟨fun _ => 1, none⟩ ⟨some 64, some 1⟩ h⟩

/-- Claim C10: a resolution of 0 (or an absent resolution) is falsy, so the
mesher substitutes the default 32 and proceeds without an error. -/
theorem claim10_resolution_fallback (field : Field) (o : Option Nat) :
    Mesher.marchingCubes field ⟨some 0, o⟩ = Mesher.marchingCubes field ⟨some 32, o⟩ ∧
    Mesher.marchingCubes field ⟨none, o⟩ = Mesher.marchingCubes field ⟨some 32, o⟩ ∧
    orDefault (some 0) 32 = 32 ∧ orDefault none 32 = 32 ∧
    (Mesher.marchingCubes field ⟨some 0, none⟩).2.isOk = true := by
  refine ⟨rfl, rfl, rfl, rfl, ?_⟩
  rw [Mesher.marchingCubes]
  norm_num [orDefault]
  rfl

/-- Each triangle record write of the STL loop ends within 50 bytes per
triple consumed from the index list. -/
theorem stlTriangleLoop_endOffset (vertices : List V3) :
    ∀ (l : List Nat) (off : Nat) (w : STLWrite), w ∈ stlTriangleLoop vertices l off →
      w.endOffset ≤ off + 50 * (l.length / 3)
  | i0 :: i1 :: i2 :: rest, off, w, h => by
    have hl : (i0 :: i1 :: i2 :: rest).length / 3 = rest.length / 3 + 1 := by
      simp only [List.length_cons]
      omega
    rw [stlTriangleLoop] at h
    rcases List.mem_append.mp h with h | h
    · simp only [triangleWrites, List.mem_cons, List.not_mem_nil, or_false] at h
      rw [hl]
      rcases h with rfl|rfl|rfl|rfl|rfl|rfl|rfl|rfl|rfl|rfl|rfl|rfl|rfl <;>
        simp only [STLWrite.endOffset] <;> omega
    · have hrec := stlTriangleLoop_endOffset vertices rest (off + 50) w h
      rw [hl]
      omega
  | [], off, w, h => by simp [stlTriangleLoop] at h
  | [i0], off, w, h => by simp [stlTriangleLoop] at h
  | [i0, i1], off, w, h => by simp [stlTriangleLoop] at h

/-- The conditional division of the STL face normal agrees with
Vec3.normalize. -/
theorem stlNormalize_eq (n : V3) :
    (if 0 < Real.sqrt (n.x * n.x + n.y * n.y + n.z * n.z)
     then V3.mk (n.x / Real.sqrt (n.x * n.x + n.y * n.y + n.z * n.z))
                (n.y / Real.sqrt (n.x * n.x + n.y * n.y + n.z * n.z))
                (n.z / Real.sqrt (n.x * n.x + n.y * n.y + n.z * n.z))
     else n) = V3.normalize n := by
  obtain ⟨x, y, z⟩ := n
  rw [V3.normalize]
  simp only [V3.length, V3.scale]
  split_ifs with h
  · simp only [V3.mk.injEq]
    refine ⟨by ring, by ring, by ring⟩
  · have hsum : x * x + y * y + z * z ≤ 0 := by
      by_contra hc
      push_neg at hc
      exact absurd (Real.sqrt_pos.mpr hc) h
    have hx : x = 0 := by nlinarith
    have hy : y = 0 := by nlinarith
    have hz : z = 0 := by nlinarith
    simp [hx, hy, hz]

/-- Claim C4: toSTL allocates exactly 84 + 50 * triangleCount bytes, every
write (80-byte header region, 4-byte count at offset 80, 50-byte triangle
records) ends inside that buffer, the output is independent of the
per-vertex gradient normals stored in the mesh, the written face normal is
the normalized cross product of the triangle's edge vectors, and each
record carries a zero 2-byte attribute field. -/
theorem claim4_stl_layout (mesh : Mesh) (name : String)
    (hlen : mesh.indices.length = 3 * mesh.triangleCount) :
    (Mesher.toSTL mesh name).1 = 84 + 50 * mesh.triangleCount ∧
    (∀ w ∈ (Mesher.toSTL mesh name).2, w.endOffset ≤ 84 + 50 * mesh.triangleCount) ∧
    (∀ ns : List V3, Mesher.toSTL { mesh with normals := ns } name = Mesher.toSTL mesh name) ∧
    (∀ v0 v1 v2 : V3, stlFaceNormal v0 v1 v2 = V3.normalize ((v1.sub v0).cross (v2.sub v0))) ∧
    (∀ (off : Nat) (v0 v1 v2 : V3), STLWrite.u16 (off + 48) 0 ∈ triangleWrites off v0 v1 v2) ∧
    STLWrite.u32 80 mesh.triangleCount ∈ (Mesher.toSTL mesh name).2 := by
  refine ⟨by simp [Mesher.toSTL, Nat.mul_comm], ?_, fun ns => rfl, ?_, ?_, ?_⟩
  · intro w hw
    rw [Mesher.toSTL] at hw
    rcases List.mem_append.mp hw with hw | hw
    · rcases List.mem_append.mp hw with hw | hw
      · simp only [stlHeaderWrites, List.mem_map, List.mem_range] at hw
        obtain ⟨i, hi, rfl⟩ := hw
        have h80 : i < 80 := lt_of_lt_of_le hi (Nat.min_le_right _ _)
        simp only [STLWrite.endOffset]
        omega
      · simp only [List.mem_singleton] at hw
        subst hw
        simp only [STLWrite.endOffset]
        omega
    · have := stlTriangleLoop_endOffset mesh.vertices mesh.indices 84 w hw
      rw [hlen] at this
      have h3 : 3 * mesh.triangleCount / 3 = mesh.triangleCount := by omega
      rw [h3] at this
      omega
  · intro v0 v1 v2
    simp only [stlFaceNormal]
    exact stlNormalize_eq _
  · intro off v0 v1 v2
    simp [triangleWrites]
  · simp [Mesher.toSTL]

/-- A one-triangle mesh used to exercise claim C4. -/
noncomputable def stlDemoMesh : Mesh :=
  { vertices := [⟨0,0,0⟩, ⟨1,0,0⟩, ⟨0,1,0⟩], normals := [⟨0,0,1⟩, ⟨0,0,1⟩, ⟨0,0,1⟩],
    indices := [0, 1, 2], vertexCount := 3, triangleCount := 1,
    bounds := ⟨⟨0,0,0⟩, ⟨1,1,0⟩⟩ }

/-- Witness for claim C4 at the one-triangle demo mesh. -/
theorem claim4_witness :
    stlDemoMesh.indices.length = 3 * stlDemoMesh.triangleCount ∧
    ((Mesher.toSTL stlDemoMesh "model").1 = 84 + 50 * stlDemoMesh.triangleCount ∧
    (∀ w ∈ (Mesher.toSTL stlDemoMesh "model").2,
      w.endOffset ≤ 84 + 50 * stlDemoMesh.triangleCount) ∧
    (∀ ns : List V3,
      Mesher.toSTL { stlDemoMesh with normals := ns } "model" =
        Mesher.toSTL stlDemoMesh "model") ∧
    (∀ v0 v1 v2 : V3, stlFaceNormal v0 v1 v2 = V3.normalize ((v1.sub v0).cross (v2.sub v0))) ∧
    (∀ (off : Nat) (v0 v1 v2 : V3), STLWrite.u16 (off + 48) 0 ∈ triangleWrites off v0 v1 v2) ∧
    STLWrite.u32 80 stlDemoMesh.triangleCount ∈ (Mesher.toSTL stlDemoMesh "model").2) :=
  ⟨rfl, claim4_stl_layout stlDemoMesh "model" rfl⟩

/-- Squared distance to a closed interval computed as the max of the two
signed overshoots agrees with the squared distance to the clamped point. -/
theorem axis_box_dist (lo hi x : ℝ) (h : lo ≤ hi) :
    max (lo - x) (max (x - hi) 0) * max (lo - x) (max (x - hi) 0) =
    (x - max lo (min hi x)) * (x - max lo (min hi x)) := by
  rcases le_total x lo with hx | hx
  · have h1 : min hi x = x := min_eq_right (hx.trans h)
    have h2 : max lo x = lo := max_eq_left hx
    have h3 : max (x - hi) 0 = 0 := max_eq_right (by linarith)
    have h4 : max (lo - x) 0 = lo - x := max_eq_left (by linarith)
    rw [h1, h2, h3, h4]
    ring
  · rcases le_total x hi with hx2 | hx2
    · have h1 : min hi x = x := min_eq_right hx2
      have h2 : max lo x = x := max_eq_right hx
      have h3 : max (x - hi) 0 = 0 := max_eq_right (by linarith)
      have h4 : max (lo - x) 0 = 0 := max_eq_right (by linarith)
      rw [h1, h2, h3, h4]
      ring
    · have h1 : min hi x = hi := min_eq_left hx2
      have h2 : max lo hi = hi := max_eq_right h
      have h3 : max (x - hi) 0 = x - hi := max_eq_left (by linarith)
      have h4 : max (lo - x) (x - hi) = x - hi := max_eq_right (by linarith)
      rw [h1, h2, h3, h4]

/-- The shared outside branch of every lattice: the square root of the
summed squared per-axis overshoots equals the Euclidean distance from the
point to its componentwise clamp onto the valid bounds. -/
theorem outside_sqrt_eq_dist (bounds : B3) (p : V3) (hvalid : bounds.isValid) :
    Real.sqrt
      (max (bounds.min.x - p.x) (max (p.x - bounds.max.x) 0) *
         max (bounds.min.x - p.x) (max (p.x - bounds.max.x) 0) +
       max (bounds.min.y - p.y) (max (p.y - bounds.max.y) 0) *
         max (bounds.min.y - p.y) (max (p.y - bounds.max.y) 0) +
       max (bounds.min.z - p.z) (max (p.z - bounds.max.z) 0) *
         max (bounds.min.z - p.z) (max (p.z - bounds.max.z) 0)) =
    V3.dist p (V3.clampTo p bounds.min bounds.max) := by
  rw [V3.dist, V3.sub, V3.clampTo, V3.length]
  congr 1
  have ex := axis_box_dist bounds.min.x bounds.max.x p.x hvalid.1
  have ey := axis_box_dist bounds.min.y bounds.max.y p.y hvalid.2.1
  have ez := axis_box_dist bounds.min.z bounds.max.z p.z hvalid.2.2
  simp only
  linear_combination ex + ey + ez

/-- Claim C8: outside its declared valid bounds every lattice field (gyroid,
Schwarz P, diamond, Schwarz D, cubic, octet) evaluates to the Euclidean
distance from the point to the bounding box (the distance to the
componentwise clamped point), which is nonnegative; and the gyroid bounded
to the cube of half-extent 40 evaluated at (1000, 1000, 1000) returns the
large positive finite value 960 times the square root of 3, never a
periodic in-pattern value. -/
theorem claim8_lattice_outside_bounds (bounds : B3) (cellSize thickness : ℝ) (p : V3)
    (hvalid : bounds.isValid)
    (hout : p.x < bounds.min.x ∨ p.x > bounds.max.x ∨ p.y < bounds.min.y ∨
            p.y > bounds.max.y ∨ p.z < bounds.min.z ∨ p.z > bounds.max.z) :
    (gyroidEvaluate bounds cellSize thickness p =
       V3.dist p (V3.clampTo p bounds.min bounds.max) ∧
     0 ≤ gyroidEvaluate bounds cellSize thickness p) ∧
    (schwarzPEvaluate bounds cellSize thickness p =
       V3.dist p (V3.clampTo p bounds.min bounds.max) ∧
     0 ≤ schwarzPEvaluate bounds cellSize thickness p) ∧
    (diamondEvaluate bounds cellSize thickness p =
       V3.dist p (V3.clampTo p bounds.min bounds.max) ∧
     0 ≤ diamondEvaluate bounds cellSize thickness p) ∧
    (schwarzDEvaluate bounds cellSize thickness p =
       V3.dist p (V3.clampTo p bounds.min bounds.max) ∧
     0 ≤ schwarzDEvaluate bounds cellSize thickness p) ∧
    (cubicEvaluate bounds cellSize thickness p =
       V3.dist p (V3.clampTo p bounds.min bounds.max) ∧
     0 ≤ cubicEvaluate bounds cellSize thickness p) ∧
    (octetEvaluate bounds cellSize thickness p =
       V3.dist p (V3.clampTo p bounds.min bounds.max) ∧
     0 ≤ octetEvaluate bounds cellSize thickness p) ∧
    schwarzPEvaluate bounds cellSize thickness p =
      gyroidEvaluate bounds cellSize thickness p ∧
    gyroidEvaluate ⟨⟨-40,-40,-40⟩, ⟨40,40,40⟩⟩ 10 (3/10) ⟨1000,1000,1000⟩ =
      960 * Real.sqrt 3 ∧
    0 < gyroidEvaluate ⟨⟨-40,-40,-40⟩, ⟨40,40,40⟩⟩ 10 (3/10) ⟨1000,1000,1000⟩ := by
  have hdist := outside_sqrt_eq_dist bounds p hvalid
  have hconcrete : gyroidEvaluate ⟨⟨-40,-40,-40⟩, ⟨40,40,40⟩⟩ 10 (3/10) ⟨1000,1000,1000⟩ =
      960 * Real.sqrt 3 := by
    simp only [gyroidEvaluate]
    rw [if_pos (by norm_num)]
    norm_num
    rw [show (2764800:ℝ) = 960 ^ 2 * 3 by norm_num,
      Real.sqrt_mul (by positivity) 3, Real.sqrt_sq (by norm_num)]
  refine ⟨⟨?_, ?_⟩, ⟨?_, ?_⟩, ⟨?_, ?_⟩, ⟨?_, ?_⟩, ⟨?_, ?_⟩, ⟨?_, ?_⟩, ?_, hconcrete, ?_⟩
  · simp only [gyroidEvaluate]; rw [if_pos hout]; exact hdist
  · simp only [gyroidEvaluate]; rw [if_pos hout]; exact Real.sqrt_nonneg _
  · simp only [schwarzPEvaluate]; rw [if_pos hout]; exact hdist
  · simp only [schwarzPEvaluate]; rw [if_pos hout]; exact Real.sqrt_nonneg _
  · simp only [diamondEvaluate]; rw [if_pos hout]; exact hdist
  · simp only [diamondEvaluate]; rw [if_pos hout]; exact Real.sqrt_nonneg _
  · simp only [schwarzDEvaluate]; rw [if_pos hout]; exact hdist
  · simp only [schwarzDEvaluate]; rw [if_pos hout]; exact Real.sqrt_nonneg _
  · simp only [cubicEvaluate]; rw [if_pos hout]; exact hdist
  · simp only [cubicEvaluate]; rw [if_pos hout]; exact Real.sqrt_nonneg _
  · simp only [octetEvaluate]; rw [if_pos hout]; exact hdist
  · simp only [octetEvaluate]; rw [if_pos hout]; exact Real.sqrt_nonneg _
  · simp only [gyroidEvaluate, schwarzPEvaluate]
    rw [if_pos hout, if_pos hout]
  · rw [hconcrete]
    positivity

/-- Witness for claim C8 at the cited bounds and sample point, across all
six lattices. -/
theorem claim8_witness :
    (B3.mk ⟨-40,-40,-40⟩ ⟨40,40,40⟩).isValid ∧
    ((V3.mk 1000 1000 1000).x < (V3.mk (-40) (-40) (-40)).x ∨
     (V3.mk 1000 1000 1000).x > (V3.mk 40 40 40).x ∨
     (V3.mk 1000 1000 1000).y < (V3.mk (-40) (-40) (-40)).y ∨
     (V3.mk 1000 1000 1000).y > (V3.mk 40 40 40).y ∨
     (V3.mk 1000 1000 1000).z < (V3.mk (-40) (-40) (-40)).z ∨
     (V3.mk 1000 1000 1000).z > (V3.mk 40 40 40).z) ∧
    ((gyroidEvaluate ⟨⟨-40,-40,-40⟩, ⟨40,40,40⟩⟩ 10 (3/10) ⟨1000,1000,1000⟩ =
        V3.dist ⟨1000,1000,1000⟩
          (V3.clampTo ⟨1000,1000,1000⟩ ⟨-40,-40,-40⟩ ⟨40,40,40⟩) ∧
      0 ≤ gyroidEvaluate ⟨⟨-40,-40,-40⟩, ⟨40,40,40⟩⟩ 10 (3/10) ⟨1000,1000,1000⟩) ∧
    (schwarzPEvaluate ⟨⟨-40,-40,-40⟩, ⟨40,40,40⟩⟩ 10 (3/10) ⟨1000,1000,1000⟩ =
        V3.dist ⟨1000,1000,1000⟩
          (V3.clampTo ⟨1000,1000,1000⟩ ⟨-40,-40,-40⟩ ⟨40,40,40⟩) ∧
      0 ≤ schwarzPEvaluate ⟨⟨-40,-40,-40⟩, ⟨40,40,40⟩⟩ 10 (3/10) ⟨1000,1000,1000⟩) ∧
    (diamondEvaluate ⟨⟨-40,-40,-40⟩, ⟨40,40,40⟩⟩ 10 (3/10) ⟨1000,1000,1000⟩ =
        V3.dist ⟨1000,1000,1000⟩
          (V3.clampTo ⟨1000,1000,1000⟩ ⟨-40,-40,-40⟩ ⟨40,40,40⟩) ∧
      0 ≤ diamondEvaluate ⟨⟨-40,-40,-40⟩, ⟨40,40,40⟩⟩ 10 (3/10) ⟨1000,1000,1000⟩) ∧
    (schwarzDEvaluate ⟨⟨-40,-40,-40⟩, ⟨40,40,40⟩⟩ 10 (3/10) ⟨1000,1000,1000⟩ =
        V3.dist ⟨1000,1000,1000⟩
          (V3.clampTo ⟨1000,1000,1000⟩ ⟨-40,-40,-40⟩ ⟨40,40,40⟩) ∧
      0 ≤ schwarzDEvaluate ⟨⟨-40,-40,-40⟩, ⟨40,40,40⟩⟩ 10 (3/10) ⟨1000,1000,1000⟩) ∧
    (cubicEvaluate ⟨⟨-40,-40,-40⟩, ⟨40,40,40⟩⟩ 10 (3/10) ⟨1000,1000,1000⟩ =
        V3.dist ⟨1000,1000,1000⟩
          (V3.clampTo ⟨1000,1000,1000⟩ ⟨-40,-40,-40⟩ ⟨40,40,40⟩) ∧
      0 ≤ cubicEvaluate ⟨⟨-40,-40,-40⟩, ⟨40,40,40⟩⟩ 10 (3/10) ⟨1000,1000,1000⟩) ∧
    (octetEvaluate ⟨⟨-40,-40,-40⟩, ⟨40,40,40⟩⟩ 10 (3/10) ⟨1000,1000,1000⟩ =
        V3.dist ⟨1000,1000,1000⟩
          (V3.clampTo ⟨1000,1000,1000⟩ ⟨-40,-40,-40⟩ ⟨40,40,40⟩) ∧
      0 ≤ octetEvaluate ⟨⟨-40,-40,-40⟩, ⟨40,40,40⟩⟩ 10 (3/10) ⟨1000,1000,1000⟩) ∧
    schwarzPEvaluate ⟨⟨-40,-40,-40⟩, ⟨40,40,40⟩⟩ 10 (3/10) ⟨1000,1000,1000⟩ =
      gyroidEvaluate ⟨⟨-40,-40,-40⟩, ⟨40,40,40⟩⟩ 10 (3/10) ⟨1000,1000,1000⟩ ∧
    gyroidEvaluate ⟨⟨-40,-40,-40⟩, ⟨40,40,40⟩⟩ 10 (3/10) ⟨1000,1000,1000⟩ =
      960 * Real.sqrt 3 ∧
    0 < gyroidEvaluate ⟨⟨-40,-40,-40⟩, ⟨40,40,40⟩⟩ 10 (3/10) ⟨1000,1000,1000⟩) := by
  have hvalid : (B3.mk ⟨-40,-40,-40⟩ ⟨40,40,40⟩).isValid := by
    refine ⟨by norm_num, by norm_num, by norm_num⟩
  have hout : (V3.mk 1000 1000 1000).x < (V3.mk (-40) (-40) (-40)).x ∨
      (V3.mk 1000 1000 1000).x > (V3.mk 40 40 40).x ∨
      (V3.mk 1000 1000 1000).y < (V3.mk (-40) (-40) (-40)).y ∨
      (V3.mk 1000 1000 1000).y > (V3.mk 40 40 40).y ∨
      (V3.mk 1000 1000 1000).z < (V3.mk (-40) (-40) (-40)).z ∨
      (V3.mk 1000 1000 1000).z > (V3.mk 40 40 40).z := by
    norm_num
  exact ⟨hvalid, hout,
    claim8_lattice_outside_bounds ⟨⟨-40,-40,-40⟩, ⟨40,40,40⟩⟩ 10 (3/10)
      ⟨1000,1000,1000⟩ hvalid hout⟩

end SDF
